import Mathlib

/-!
Verification of the Kafka benchmark pipeline (`python-example/kafka_benchmark.py`).

This file shallowly embeds the pure data-processing core of the script:

* `_parse_producer_output` (the regex scan over `kafka-producer-perf-test.sh` stdout),
* `_parse_consumer_output` (the reverse line scan over CSV-ish consumer stdout),
* `run_producer_test` / `run_consumer_test` / `run_test_suite` (the per-test
  branching on the subprocess result and the accumulation of `self.results`),
* `save_results` (JSON persistence) together with a loader modelled from the spec,
* the aggregation pieces of `ReportGenerator` (`successes`, per-mode subsets,
  topic tables with the canonical `topic_order` reindex, per-topic `.mean().round(2)`
  statistics, and the summary callouts of `generate_html_report`).

Modelling conventions:

* Python strings are `String` / `List Char`; numeric values are exact rationals
  (`ℚ`) standing for the decimal literals the script converts with `float(...)`.
  `pyFloat` models CPython's `float(str)` on the sign/digits/dot/exponent grammar
  (the exotic `inf` / `nan` / `_` spellings are not modelled; no input in the
  claims uses them, every such string is rejected by both).
* Exceptions are `Except String`: `_parse_producer_output` can raise `ValueError`
  (an uncaught `float(...)` failure), and `run_*_test` catches it.
* The regex of `_parse_producer_output` is embedded as a deterministic
  maximal-munch matcher.  This is faithful to Python's greedy backtracking
  matcher because every quantified class in the pattern is followed by a
  character disjoint from the class: `\d+` and `[\d.]+` are always followed by
  `\s`, and every `\s+` is followed by a non-space literal (`r`, `(`, `m`, `M`).
  Hence no backtracking into a shorter munch can ever succeed where the maximal
  munch fails, and the maximal munch is the match Python returns.
* The wall clock (elapsed times, timestamps) and the subprocess itself are
  oracles: a `ProcResult` value per invocation.
-/

/-- Python's `\s` / `str.strip()` whitespace on the ASCII range. -/
def isPySpace (c : Char) : Bool :=
  c == ' ' || c == '\t' || c == '\n' || c == '\r' || c == Char.ofNat 11 || c == Char.ofNat 12

/-- The character class `[\d.]` of the producer regex. -/
def isDigitDot (c : Char) : Bool := c.isDigit || c == '.'

/-- Greedy span: maximal prefix satisfying `p`, plus the remainder. -/
def spanB (p : Char → Bool) : List Char → List Char × List Char
  | [] => ([], [])
  | c :: cs =>
    if p c then
      let r := spanB p cs
      (c :: r.1, r.2)
    else ([], c :: cs)

/-- One-or-more greedy class match (`X+` for a character class `X`). -/
def class1 (p : Char → Bool) (cs : List Char) : Option (List Char × List Char) :=
  match spanB p cs with
  | ([], _) => none
  | (g, rest) => some (g, rest)

/-- Match a literal character sequence, returning the remainder. -/
def lit : List Char → List Char → Option (List Char)
  | [], rest => some rest
  | _ :: _, [] => none
  | l :: ls, c :: cs => if l == c then lit ls cs else none

/-- Python `line.startswith(p)`. -/
def begWith : List Char → List Char → Bool
  | [], _ => true
  | _ :: _, [] => false
  | p :: ps, c :: cs => p == c && begWith ps cs

/-- Python `s.split(sep)` for a one-character separator (no run collapsing;
`"".split(sep) == [""]`). -/
def splitSep (sep : Char) : List Char → List (List Char)
  | [] => [[]]
  | c :: rest =>
    if c = sep then [] :: splitSep sep rest
    else
      match splitSep sep rest with
      | h :: t => (c :: h) :: t
      | [] => [[c]]

/-- `sep.join(parts)`, the left inverse used to build concrete rows. -/
def joinSep (sep : Char) : List (List Char) → List Char
  | [] => []
  | [x] => x
  | x :: xs => x ++ sep :: joinSep sep xs

/-- Python `s.strip()` (whitespace from both ends). -/
def stripPy (cs : List Char) : List Char :=
  ((cs.dropWhile isPySpace).reverse.dropWhile isPySpace).reverse

/-- Numeric value of a digit string (the value `float` / `int` give it). -/
def natOfDigits (cs : List Char) : ℕ :=
  cs.foldl (fun a c => 10 * a + (c.toNat - 48)) 0

/-- Optional `+` / `-` sign at the head of a float literal. -/
def splitSign (s : List Char) : ℚ × List Char :=
  if s.head? = some '+' then (1, s.tail)
  else if s.head? = some '-' then (-1, s.tail)
  else (1, s)

/-- Decimal mantissa value `ip . fp`. -/
def mantissaVal (ip fp : List Char) : ℚ :=
  (natOfDigits ip : ℚ) + (natOfDigits fp : ℚ) / (10 : ℚ) ^ fp.length

/-- Apply a decimal exponent. -/
def applyExp (m : ℚ) (e : ℤ) : ℚ :=
  if 0 ≤ e then m * (10 : ℚ) ^ e.toNat else m / (10 : ℚ) ^ (-e).toNat

/-- Exponent suffix of a float literal: empty, or `e`/`E`, optional sign, digits,
and nothing after. -/
def expPart : List Char → Option ℤ
  | [] => some 0
  | c :: cs =>
    if c == 'e' || c == 'E' then
      let sd : ℤ × List Char :=
        match cs with
        | '+' :: t => (1, t)
        | '-' :: t => (-1, t)
        | t => (1, t)
      if sd.2 ≠ [] ∧ sd.2.all Char.isDigit then some (sd.1 * (natOfDigits sd.2 : ℤ))
      else none
    else none

/-- CPython `float(str)` on the numeric grammar (see the header note): strip,
optional sign, `digits [. digits]` with at least one digit, optional exponent,
nothing left over.  `none` models a raised `ValueError`. -/
def pyFloat (cs : List Char) : Option ℚ :=
  let s0 := stripPy cs
  let sg := splitSign s0
  let ipr := spanB Char.isDigit sg.2
  match ipr.2 with
  | '.' :: s2 =>
    let fpr := spanB Char.isDigit s2
    if ipr.1 = [] ∧ fpr.1 = [] then none
    else
      match expPart fpr.2 with
      | some e => some (sg.1 * applyExp (mantissaVal ipr.1 fpr.1) e)
      | none => none
  | rest =>
    if ipr.1 = [] then none
    else
      match expPart rest with
      | some e => some (sg.1 * applyExp (mantissaVal ipr.1 []) e)
      | none => none

/-- A decimal float literal as it appears in producer output: integer digits and
an optional `'.'`-prefixed fractional digit part. -/
structure FloatLit where
  ip : List Char
  fp : Option (List Char)
deriving DecidableEq

/-- The rendered text of the literal. -/
def FloatLit.render (f : FloatLit) : List Char :=
  f.ip ++ (match f.fp with | none => [] | some d => '.' :: d)

/-- The rational number the literal denotes (what `float` returns on it). -/
def FloatLit.val (f : FloatLit) : ℚ :=
  mantissaVal f.ip (f.fp.getD [])

/-- Well-formedness: digit characters only, and at least one digit somewhere
(Python accepts `1.`, `.5`, `1.25`, rejects `.`, ``). -/
def FloatLit.valid (f : FloatLit) : Prop :=
  (∀ c ∈ f.ip, c.isDigit = true) ∧ (∀ c ∈ f.fp.getD [], c.isDigit = true) ∧
    f.ip ++ f.fp.getD [] ≠ []

/-- The five capture groups of the producer regex. -/
structure ProdGroups where
  g1 : List Char
  g2 : List Char
  g3 : List Char
  g4 : List Char
  g5 : List Char
deriving DecidableEq

/-- The literal chunks of the producer pattern. -/
def litRS : List Char := "records sent,".data
def litRPS : List Char := "records/sec".data
def litP : List Char := "(".data
def litMBS : List Char := "MB/sec),".data
def litAVG : List Char := "ms avg latency,".data
def litMAX : List Char := "ms max latency".data

/-- `\s+` followed by a literal chunk. -/
def eatSpLit (l : List Char) (cs : List Char) : Option (List Char) :=
  (class1 isPySpace cs).bind fun s => lit l s.2

/-- `\s+` followed by a `[\d.]+` capture group. -/
def eatSpClass (cs : List Char) : Option (List Char × List Char) :=
  (class1 isPySpace cs).bind fun s => class1 isDigitDot s.2

/-- Attempt the producer pattern at the current position (maximal munch; see the
header note for why this equals the Python regex):
`(\d+)\s+records sent,\s+([\d.]+)\s+records/sec\s+\(([\d.]+)\s+MB/sec\),\s+([\d.]+)\s+ms avg latency,\s+([\d.]+)\s+ms max latency`. -/
def matchProdAt (cs : List Char) : Option ProdGroups :=
  (class1 Char.isDigit cs).bind fun p1 =>
  (eatSpLit litRS p1.2).bind fun r2 =>
  (eatSpClass r2).bind fun p2 =>
  (eatSpLit litRPS p2.2).bind fun r4 =>
  (eatSpLit litP r4).bind fun r5 =>
  (class1 isDigitDot r5).bind fun p3 =>
  (eatSpLit litMBS p3.2).bind fun r7 =>
  (eatSpClass r7).bind fun p4 =>
  (eatSpLit litAVG p4.2).bind fun r9 =>
  (eatSpClass r9).bind fun p5 =>
  (eatSpLit litMAX p5.2).bind fun _ =>
  some ⟨p1.1, p2.1, p3.1, p4.1, p5.1⟩

/-- `re.search`: try the pattern at each position, leftmost match wins. -/
def searchProd : List Char → Option ProdGroups
  | [] => matchProdAt []
  | c :: cs =>
    match matchProdAt (c :: cs) with
    | some g => some g
    | none => searchProd cs

/-- The producer metric dict; absent keys are `none`. -/
structure ProducerMetrics where
  records_sent : Option ℚ := none
  records_per_sec : Option ℚ := none
  throughput_mb_sec : Option ℚ := none
  avg_latency_ms : Option ℚ := none
  max_latency_ms : Option ℚ := none
deriving DecidableEq

/-- `KafkaBenchmark._parse_producer_output`: search, then convert the five
capture groups with `float(...)` in order.  `.error` models the uncaught
`ValueError` when a captured group is not a valid float literal. -/
def parseProdChars (cs : List Char) : Except String ProducerMetrics :=
  match searchProd cs with
  | none => .ok {}
  | some g =>
    match pyFloat g.g1 with
    | none => .error "ValueError"
    | some v1 =>
      match pyFloat g.g2 with
      | none => .error "ValueError"
      | some v2 =>
        match pyFloat g.g3 with
        | none => .error "ValueError"
        | some v3 =>
          match pyFloat g.g4 with
          | none => .error "ValueError"
          | some v4 =>
            match pyFloat g.g5 with
            | none => .error "ValueError"
            | some v5 =>
              .ok ⟨some v1, some v2, some v3, some v4, some v5⟩

/-- String-level wrapper for `_parse_producer_output`. -/
def parse_producer_output (s : String) : Except String ProducerMetrics :=
  parseProdChars s.data

/-- A producer summary line built from its five numeric fields, e.g.
`1000000 records sent, 199960.01 records/sec (195.27 MB/sec), 2.41 ms avg latency, 445.00 ms max latency`
(right-nested so the matcher lemmas peel it segment by segment). -/
def plineChars (n : List Char) (r t a m : FloatLit) : List Char :=
  n ++ (' ' :: (litRS ++ (' ' :: (r.render ++ (' ' :: (litRPS ++ (' ' :: (litP ++
    (t.render ++ (' ' :: (litMBS ++ (' ' :: (a.render ++ (' ' :: (litAVG ++
    (' ' :: (m.render ++ (' ' :: litMAX))))))))))))))))))

/-- The consumer metric dict; absent keys are `none`. -/
structure ConsumerMetrics where
  data_consumed_mb : Option ℚ := none
  throughput_mb_sec : Option ℚ := none
  messages_consumed : Option ℚ := none
  records_per_sec : Option ℚ := none
  rebalance_time_ms : Option ℚ := none
  fetch_time_ms : Option ℚ := none
deriving DecidableEq

/-- Loop guard of `_parse_consumer_output`:
`line.strip() and not line.startswith('start.time')`. -/
def isCandLine (l : List Char) : Bool :=
  !(stripPy l).isEmpty && !(begWith "start.time".data l)

/-- First candidate in the given scan order (the Python loop breaks at it). -/
def findCand : List (List Char) → Option (List Char)
  | [] => none
  | l :: rest => if isCandLine l then some l else findCand rest

/-- Body of the `try:` block on the selected row: split on commas, strip each
field, require 6 fields, then convert fields sequentially; a `float` failure
(`none`) stops the assignments, keeping what was already assigned — exactly the
effect of the `except (ValueError, IndexError): pass` handler on the mutated
dict.  `float(str)` raises only `ValueError`, and the length guards make
`IndexError` unreachable, so the function is total. -/
def processRow (line : List Char) : ConsumerMetrics :=
  let parts := (splitSep ',' line).map stripPy
  if 6 ≤ parts.length then
    match pyFloat (parts.getD 2 []) with
    | none => {}
    | some v2 =>
      match pyFloat (parts.getD 3 []) with
      | none => { data_consumed_mb := some v2 }
      | some v3 =>
        match pyFloat (parts.getD 4 []) with
        | none => { data_consumed_mb := some v2, throughput_mb_sec := some v3 }
        | some v4 =>
          match pyFloat (parts.getD 5 []) with
          | none => { data_consumed_mb := some v2, throughput_mb_sec := some v3,
                      messages_consumed := some v4 }
          | some v5 =>
            if 10 ≤ parts.length then
              match pyFloat (parts.getD 6 []) with
              | none => { data_consumed_mb := some v2, throughput_mb_sec := some v3,
                          messages_consumed := some v4, records_per_sec := some v5 }
              | some v6 =>
                match pyFloat (parts.getD 7 []) with
                | none => { data_consumed_mb := some v2, throughput_mb_sec := some v3,
                            messages_consumed := some v4, records_per_sec := some v5,
                            rebalance_time_ms := some v6 }
                | some v7 => ⟨some v2, some v3, some v4, some v5, some v6, some v7⟩
            else
              { data_consumed_mb := some v2, throughput_mb_sec := some v3,
                messages_consumed := some v4, records_per_sec := some v5 }
  else {}

/-- `_parse_consumer_output` after `output.strip().split('\n')`: scan the lines
from the end backward, process the first candidate, stop. -/
def parse_consumer_lines (ls : List (List Char)) : ConsumerMetrics :=
  match findCand ls.reverse with
  | some l => processRow l
  | none => {}

/-- `KafkaBenchmark._parse_consumer_output`. -/
def parse_consumer_output (s : String) : ConsumerMetrics :=
  parse_consumer_lines (splitSep '\n' (stripPy s.data))

/-- Keyword arguments of `run_producer_test`, with the signature's defaults. -/
structure ProducerConfig where
  topic : String
  num_records : Int := 1000000
  record_size : Int := 1024
  acks : String := "1"
  test_name : Option String := none
deriving DecidableEq

/-- Keyword arguments of `run_consumer_test`, with the signature's defaults. -/
structure ConsumerConfig where
  topic : String
  messages : Int := 1000000
  test_name : Option String := none
deriving DecidableEq

/-- Oracle for one `subprocess.run` invocation: it returned (with exit code,
captured stdout/stderr, and the measured wall clock and timestamp), expired the
300 s timeout (`subprocess.TimeoutExpired`), or raised some other exception. -/
inductive ProcResult where
  | completed (returncode : Int) (stdout stderr : String) (elapsed : ℚ) (timestamp : String)
  | timedOut
  | excepted (msg : String)
deriving DecidableEq

/-- One result dict as built by `run_producer_test` / `run_consumer_test`;
keys a branch does not set are `none`. -/
structure Outcome where
  test_name : String
  test_type : String
  status : String
  topic : Option String := none
  num_records : Option Int := none
  record_size : Option Int := none
  messages : Option Int := none
  acks : Option String := none
  error : Option String := none
  elapsed_time : Option ℚ := none
  timestamp : Option String := none
  records_sent : Option ℚ := none
  records_per_sec : Option ℚ := none
  throughput_mb_sec : Option ℚ := none
  avg_latency_ms : Option ℚ := none
  max_latency_ms : Option ℚ := none
  data_consumed_mb : Option ℚ := none
  messages_consumed : Option ℚ := none
  rebalance_time_ms : Option ℚ := none
  fetch_time_ms : Option ℚ := none
deriving DecidableEq

/-- `KafkaBenchmark.run_producer_test` as a function of the subprocess oracle.
Returns the result record and whether it was appended to `self.results`
(the timeout/error branches, including a `ValueError` escaping
`_parse_producer_output`, return without appending). -/
def run_producer_test (c : ProducerConfig) (p : ProcResult) : Outcome × Bool :=
  let tn := c.test_name.getD (c.topic ++ "-producer")
  match p with
  | .completed rc out err el ts =>
    if rc = 0 then
      match parse_producer_output out with
      | .ok m =>
        ({ test_name := tn, test_type := "producer", status := "success",
           topic := some c.topic, num_records := some c.num_records,
           record_size := some c.record_size, acks := some c.acks,
           elapsed_time := some el, timestamp := some ts,
           records_sent := m.records_sent, records_per_sec := m.records_per_sec,
           throughput_mb_sec := m.throughput_mb_sec,
           avg_latency_ms := m.avg_latency_ms, max_latency_ms := m.max_latency_ms },
         true)
      | .error e =>
        ({ test_name := tn, test_type := "producer", status := "error",
           error := some e }, false)
    else
      ({ test_name := tn, test_type := "producer", status := "failed",
         topic := some c.topic, error := some err, timestamp := some ts }, true)
  | .timedOut => ({ test_name := tn, test_type := "producer", status := "timeout" }, false)
  | .excepted msg =>
    ({ test_name := tn, test_type := "producer", status := "error", error := some msg }, false)

/-- `KafkaBenchmark.run_consumer_test` as a function of the subprocess oracle. -/
def run_consumer_test (c : ConsumerConfig) (p : ProcResult) : Outcome × Bool :=
  let tn := c.test_name.getD (c.topic ++ "-consumer")
  match p with
  | .completed rc out err el ts =>
    if rc = 0 then
      let m := parse_consumer_output out
      ({ test_name := tn, test_type := "consumer", status := "success",
         topic := some c.topic, messages := some c.messages,
         elapsed_time := some el, timestamp := some ts,
         data_consumed_mb := m.data_consumed_mb,
         throughput_mb_sec := m.throughput_mb_sec,
         messages_consumed := m.messages_consumed,
         records_per_sec := m.records_per_sec,
         rebalance_time_ms := m.rebalance_time_ms,
         fetch_time_ms := m.fetch_time_ms }, true)
    else
      ({ test_name := tn, test_type := "consumer", status := "failed",
         topic := some c.topic, error := some err, timestamp := some ts }, true)
  | .timedOut => ({ test_name := tn, test_type := "consumer", status := "timeout" }, false)
  | .excepted msg =>
    ({ test_name := tn, test_type := "consumer", status := "error", error := some msg }, false)

/-- `KafkaBenchmark.run_test_suite`: run the producer configs in order, then the
consumer configs (if supplied; `None` - and vacuously an empty list - skips the
consumer block), accumulating `self.results` as each run appends to it.  Each
config is paired with its subprocess oracle. -/
def run_test_suite (ps : List (ProducerConfig × ProcResult))
    (cs : Option (List (ConsumerConfig × ProcResult))) : List Outcome :=
  let r1 := ps.foldl
    (fun acc cp =>
      let r := run_producer_test cp.1 cp.2
      if r.2 then acc ++ [r.1] else acc) []
  match cs with
  | none => r1
  | some cl =>
    cl.foldl
      (fun acc cp =>
        let r := run_consumer_test cp.1 cp.2
        if r.2 then acc ++ [r.1] else acc) r1

/-- `successful_results` in `ReportGenerator.__init__`. -/
def successes (rs : List Outcome) : List Outcome :=
  rs.filter (fun o => o.status == "success")

/-- `self.producer_df`: successful rows with `test_type == 'producer'`. -/
def producerRows (rs : List Outcome) : List Outcome :=
  (successes rs).filter (fun o => o.test_type == "producer")

/-- `self.consumer_df`: successful rows with `test_type == 'consumer'`. -/
def consumerRows (rs : List Outcome) : List Outcome :=
  (successes rs).filter (fun o => o.test_type == "consumer")

/-- The hardcoded canonical display order of `_generate_summary_html`. -/
def topic_order : List String := ["p1-rf1", "p1-rf3", "p3-rf3", "p12-rf3", "p30-rf3"]

/-- Insertion step for lexicographic string sort. -/
def insSorted (x : String) : List String → List String
  | [] => [x]
  | y :: ys => if compare x y == .lt then x :: y :: ys else y :: insSorted x ys

/-- Lexicographic insertion sort (pandas `groupby` sorts its keys). -/
def sortStr : List String → List String
  | [] => []
  | x :: xs => insSorted x (sortStr xs)

/-- `df.groupby('topic')` index: the distinct topic keys, sorted; rows with a
missing topic are dropped by pandas. -/
def groupTopics (rows : List Outcome) : List String :=
  sortStr (rows.filterMap (fun o => o.topic)).dedup

/-- Row order of one summary table after
`stats.reindex([t for t in topic_order if t in stats.index])`: exactly the
canonical topics that occur, in canonical order; any other topic is dropped. -/
def tableTopics (rows : List Outcome) : List String :=
  topic_order.filter (fun t => (groupTopics rows).contains t)

/-- Arithmetic mean of a list of rationals (pandas `mean` over non-null cells;
`0` on the empty list, where pandas would give `NaN`). -/
def meanQ (l : List ℚ) : ℚ := l.sum / (l.length : ℚ)

/-- Round half to even to an integer (`numpy.rint`, used by `DataFrame.round`). -/
def rintHE (q : ℚ) : ℤ :=
  let f := ⌊q⌋
  let r := q - (f : ℚ)
  if r < 1 / 2 then f
  else if 1 / 2 < r then f + 1
  else if f % 2 = 0 then f else f + 1

/-- `round(2)`: scale by `100`, round half to even, scale back (idealized over
exact rationals; numpy does the same dance on doubles). -/
def rnd2 (q : ℚ) : ℚ := (rintHE (q * 100) : ℚ) / 100

/-- The `throughput_mb_sec` cells of the group for topic `t` (non-null only,
as pandas aggregates them). -/
def topicThroughputs (rows : List Outcome) (t : String) : List ℚ :=
  (rows.filter (fun o => o.topic == some t)).filterMap (fun o => o.throughput_mb_sec)

/-- The `Avg Throughput (MB/sec)` cell of the producer summary table for topic
`t`: `producer_df.groupby('topic')['throughput_mb_sec'].mean().round(2)`. -/
def producerShownThroughput (rs : List Outcome) (t : String) : ℚ :=
  rnd2 (meanQ (topicThroughputs (producerRows rs) t))

/-- Definition following the claim's words, for comparison with the code's
table cell: the plain arithmetic mean of the `throughputMBps` values of all
Success producer outcomes sharing topic `t`. -/
def claimTopicMeanThroughput (rs : List Outcome) (t : String) : ℚ :=
  meanQ ((rs.filter (fun o =>
    o.status == "success" && (o.test_type == "producer" && o.topic == some t))).filterMap
      (fun o => o.throughput_mb_sec))

/-- The summary callouts of `_generate_summary_html` that the claims inspect. -/
structure ReportSummary where
  avg_throughput : ℚ
  max_throughput : ℚ
  best_test : String
deriving DecidableEq

/-- `sub['throughput_mb_sec'].max()` together with
`sub.loc[sub['throughput_mb_sec'].idxmax(), 'test_name']`: the maximum of the
non-null throughput cells and the `test_name` of the first row attaining it
(`idxmax` returns the first maximizer; pandas skips nulls).  `none` when no row
has a throughput value, where pandas would raise. -/
def maxBest (rows : List Outcome) : Option (ℚ × String) :=
  rows.foldl
    (fun acc o =>
      match o.throughput_mb_sec with
      | none => acc
      | some q =>
        match acc with
        | none => some (q, o.test_name)
        | some mb => if mb.1 < q then some (q, o.test_name) else some mb)
    none

/-- `ReportGenerator.generate_html_report`, reduced to the data the report
text interpolates: `.ok none` models the early `return None` when there are no
successful results; `.error` models the pandas exception when the chosen subset
has no throughput column to maximize over. -/
def generate_html_report (rs : List Outcome) : Except String (Option ReportSummary) :=
  if (successes rs).isEmpty then .ok none
  else
    let sub := if (producerRows rs).isEmpty then consumerRows rs else producerRows rs
    match maxBest sub with
    | none => .error "pandas"
    | some mb =>
      .ok (some { avg_throughput := meanQ (sub.filterMap (fun o => o.throughput_mb_sec)),
                  max_throughput := mb.1, best_test := mb.2 })

/-- JSON scalar values as Python's `json` module distinguishes them. -/
inductive JVal where
  | s (v : String)
  | i (v : Int)
  | q (v : ℚ)
deriving DecidableEq

/-- Decode a JSON string. -/
def JVal.asS : JVal → Option String
  | .s v => some v
  | _ => none

/-- Decode a JSON integer. -/
def JVal.asI : JVal → Option Int
  | .i v => some v
  | _ => none

/-- Decode a JSON number. -/
def JVal.asQ : JVal → Option ℚ
  | .q v => some v
  | _ => none

/-- Emit one optional dict entry (absent fields are simply not written). -/
def optF {α : Type} (k : String) (f : α → JVal) : Option α → List (String × JVal)
  | none => []
  | some x => [(k, f x)]

/-- The JSON object `json.dump` writes for one result dict. -/
def outcomeToJson (o : Outcome) : List (String × JVal) :=
  [("test_name", .s o.test_name), ("test_type", .s o.test_type), ("status", .s o.status)]
  ++ optF "topic" .s o.topic
  ++ optF "num_records" .i o.num_records
  ++ optF "record_size" .i o.record_size
  ++ optF "messages" .i o.messages
  ++ optF "acks" .s o.acks
  ++ optF "error" .s o.error
  ++ optF "elapsed_time" .q o.elapsed_time
  ++ optF "timestamp" .s o.timestamp
  ++ optF "records_sent" .q o.records_sent
  ++ optF "records_per_sec" .q o.records_per_sec
  ++ optF "throughput_mb_sec" .q o.throughput_mb_sec
  ++ optF "avg_latency_ms" .q o.avg_latency_ms
  ++ optF "max_latency_ms" .q o.max_latency_ms
  ++ optF "data_consumed_mb" .q o.data_consumed_mb
  ++ optF "messages_consumed" .q o.messages_consumed
  ++ optF "rebalance_time_ms" .q o.rebalance_time_ms
  ++ optF "fetch_time_ms" .q o.fetch_time_ms

/-- `KafkaBenchmark.save_results`: `json.dump(self.results, f)`, modelled at the
JSON value level (the textual layer is the stdlib's faithful inverse pair on
these values: `repr` of a finite float round-trips exactly). -/
def save_results (rs : List Outcome) : List (List (String × JVal)) :=
  rs.map outcomeToJson

/-- Modelled from the spec: the repository writes the results file but contains
no loader; spec section 4.4 requires the persisted file to be re-loadable with
every present field reproduced, and section 6 calls it suitable for independent
report regeneration.  This loader reads back, via `json.load`, each field that
`save_results` writes. -/
def outcomeOfJson (j : List (String × JVal)) : Option Outcome :=
  (List.lookup "test_name" j).bind JVal.asS |>.bind fun tn =>
  (List.lookup "test_type" j).bind JVal.asS |>.bind fun tt =>
  (List.lookup "status" j).bind JVal.asS |>.bind fun st =>
  some { test_name := tn, test_type := tt, status := st,
         topic := (List.lookup "topic" j).bind JVal.asS,
         num_records := (List.lookup "num_records" j).bind JVal.asI,
         record_size := (List.lookup "record_size" j).bind JVal.asI,
         messages := (List.lookup "messages" j).bind JVal.asI,
         acks := (List.lookup "acks" j).bind JVal.asS,
         error := (List.lookup "error" j).bind JVal.asS,
         elapsed_time := (List.lookup "elapsed_time" j).bind JVal.asQ,
         timestamp := (List.lookup "timestamp" j).bind JVal.asS,
         records_sent := (List.lookup "records_sent" j).bind JVal.asQ,
         records_per_sec := (List.lookup "records_per_sec" j).bind JVal.asQ,
         throughput_mb_sec := (List.lookup "throughput_mb_sec" j).bind JVal.asQ,
         avg_latency_ms := (List.lookup "avg_latency_ms" j).bind JVal.asQ,
         max_latency_ms := (List.lookup "max_latency_ms" j).bind JVal.asQ,
         data_consumed_mb := (List.lookup "data_consumed_mb" j).bind JVal.asQ,
         messages_consumed := (List.lookup "messages_consumed" j).bind JVal.asQ,
         rebalance_time_ms := (List.lookup "rebalance_time_ms" j).bind JVal.asQ,
         fetch_time_ms := (List.lookup "fetch_time_ms" j).bind JVal.asQ }

/-- Modelled from the spec (see `outcomeOfJson`): load the whole results file. -/
def load_results : List (List (String × JVal)) → Option (List Outcome)
  | [] => some []
  | j :: js =>
    match outcomeOfJson j, load_results js with
    | some o, some os => some (o :: os)
    | _, _ => none

/-- The record (if any) that one producer invocation appends to `self.results`. -/
def producerRecord (cp : ProducerConfig × ProcResult) : Option Outcome :=
  let r := run_producer_test cp.1 cp.2
  if r.2 then some r.1 else none

/-- The record (if any) that one consumer invocation appends to `self.results`. -/
def consumerRecord (cp : ConsumerConfig × ProcResult) : Option Outcome :=
  let r := run_consumer_test cp.1 cp.2
  if r.2 then some r.1 else none

/-- A successful producer result on a topic outside the canonical list. -/
def oCustomTopic : Outcome :=
  { test_name := "Custom Producer", test_type := "producer", status := "success",
    topic := some "custom-topic", throughput_mb_sec := some 5 }

/-- Successful producer result, topic `p1-rf1`, throughput `1` MB/sec. -/
def oHalfA : Outcome :=
  { test_name := "A Producer", test_type := "producer", status := "success",
    topic := some "p1-rf1", throughput_mb_sec := some 1 }

/-- Successful producer result, topic `p1-rf1`, throughput `9/8 = 1.125` MB/sec
(exactly representable in binary, so the idealized rounding model and numpy
agree on it). -/
def oHalfB : Outcome :=
  { test_name := "B Producer", test_type := "producer", status := "success",
    topic := some "p1-rf1", throughput_mb_sec := some (9 / 8) }

/-- Successful producer result with an integral throughput. -/
def oWhole : Outcome :=
  { test_name := "W Producer", test_type := "producer", status := "success",
    topic := some "p1-rf1", throughput_mb_sec := some 2 }

/-- A lone successful producer result. -/
def oSingle : Outcome :=
  { test_name := "Solo Producer", test_type := "producer", status := "success",
    topic := some "p1-rf1", throughput_mb_sec := some 7 }

/-! ### Generic lemmas about the scanning primitives -/

theorem not_space_of_dd {c : Char} (h : isDigitDot c = true) : isPySpace c = false := by
  by_contra hs
  rw [Bool.not_eq_false] at hs
  simp only [isPySpace, Bool.or_eq_true, beq_iff_eq] at hs
  rcases hs with ((((h1 | h1) | h1) | h1) | h1) | h1 <;>
    (subst h1; exact absurd h (by decide))

theorem dd_of_digit {c : Char} (h : c.isDigit = true) : isDigitDot c = true := by
  simp [isDigitDot, h]

theorem ne_comma_of_dd {c : Char} (h : isDigitDot c = true) : ¬ c = ',' := by
  intro hc; subst hc; exact absurd h (by decide)

theorem spanB_all {p : Char → Bool} {l : List Char} (h : ∀ c ∈ l, p c = true) :
    spanB p l = (l, []) := by
  induction l with
  | nil => rfl
  | cons c cs ih =>
    have hc := h c (by simp)
    simp [spanB, hc, ih fun x hx => h x (by simp [hx])]

theorem spanB_append_stop {p : Char → Bool} {xs ys : List Char} {c : Char}
    (hall : ∀ x ∈ xs, p x = true) (hc : ys.head? = some c) (hpc : p c = false) :
    spanB p (xs ++ ys) = (xs, ys) := by
  induction xs with
  | nil =>
    cases ys with
    | nil => simp at hc
    | cons y t =>
      have : y = c := by simpa using hc
      subst this
      simp [spanB, hpc]
  | cons x xs ih =>
    have hx := hall x (by simp)
    simp [spanB, hx, ih fun z hz => hall z (by simp [hz])]

theorem class1_append {p : Char → Bool} {xs ys : List Char} {c : Char}
    (hne : xs ≠ []) (hall : ∀ x ∈ xs, p x = true)
    (hc : ys.head? = some c) (hpc : p c = false) :
    class1 p (xs ++ ys) = some (xs, ys) := by
  rw [class1, spanB_append_stop hall hc hpc]
  cases xs with
  | nil => exact absurd rfl hne
  | cons x t => rfl

theorem lit_append (l rest : List Char) : lit l (l ++ rest) = some rest := by
  induction l with
  | nil => rfl
  | cons c cs ih => simp [lit, ih]

theorem eatSpLit_chunk {c : Char} {l : List Char} (rest : List Char)
    (hl : l.head? = some c) (hc : isPySpace c = false) :
    eatSpLit l (' ' :: (l ++ rest)) = some rest := by
  have h1 : class1 isPySpace ([' '] ++ (l ++ rest)) = some ([' '], l ++ rest) := by
    cases l with
    | nil => simp at hl
    | cons x t =>
      have : x = c := by simpa using hl
      subst this
      exact class1_append (by simp) (by decide) (by simp) hc
  rw [eatSpLit, show (' ' :: (l ++ rest)) = [' '] ++ (l ++ rest) from rfl, h1]
  simpa using lit_append l rest

theorem eatSpClass_chunk {g : List Char} (tail : List Char) {d : Char}
    (hgne : g ≠ []) (hgdd : ∀ x ∈ g, isDigitDot x = true)
    (hd : tail.head? = some d) (hdd : isDigitDot d = false) :
    eatSpClass (' ' :: (g ++ tail)) = some (g, tail) := by
  have hgs : class1 isPySpace ([' '] ++ (g ++ tail)) = some ([' '], g ++ tail) := by
    cases g with
    | nil => exact absurd rfl hgne
    | cons x t =>
      exact class1_append (by simp) (by decide)
        (c := x) (by simp) (not_space_of_dd (hgdd x (by simp)))
  rw [eatSpClass, show (' ' :: (g ++ tail)) = [' '] ++ (g ++ tail) from rfl, hgs]
  simpa using class1_append hgne hgdd hd hdd

theorem FloatLit.render_dd {f : FloatLit} (h : f.valid) :
    ∀ c ∈ f.render, isDigitDot c = true := by
  obtain ⟨hip, hfp, -⟩ := h
  intro c hc
  rcases f with ⟨ip, fp⟩
  cases fp with
  | none =>
    simp only [FloatLit.render, List.append_nil] at hc
    exact dd_of_digit (hip c hc)
  | some d =>
    simp only [FloatLit.render, List.mem_append, List.mem_cons] at hc
    rcases hc with hc | hc | hc
    · exact dd_of_digit (hip c hc)
    · subst hc; decide
    · exact dd_of_digit (hfp c (by simpa using hc))

theorem FloatLit.render_ne_nil {f : FloatLit} (h : f.valid) : f.render ≠ [] := by
  obtain ⟨-, -, hne⟩ := h
  rcases f with ⟨ip, fp⟩
  cases fp with
  | none => simpa [FloatLit.render] using hne
  | some d => simp [FloatLit.render]

theorem class1_digits_sp {n : List Char} (z : List Char)
    (hn : n ≠ []) (hnd : ∀ c ∈ n, c.isDigit = true) :
    class1 Char.isDigit (n ++ (' ' :: z)) = some (n, ' ' :: z) :=
  class1_append hn hnd rfl (by decide)

theorem class1_dd_sp {g : List Char} (z : List Char)
    (hg : g ≠ []) (hgdd : ∀ c ∈ g, isDigitDot c = true) :
    class1 isDigitDot (g ++ (' ' :: z)) = some (g, ' ' :: z) :=
  class1_append hg hgdd rfl (by decide)

theorem eatSpClass_chunk_sp {g : List Char} (z : List Char)
    (hgne : g ≠ []) (hgdd : ∀ x ∈ g, isDigitDot x = true) :
    eatSpClass (' ' :: (g ++ (' ' :: z))) = some (g, ' ' :: z) :=
  eatSpClass_chunk (' ' :: z) hgne hgdd rfl (by decide)

theorem eatSpLit_RS (rest : List Char) :
    eatSpLit litRS (' ' :: (litRS ++ rest)) = some rest :=
  eatSpLit_chunk (c := 'r') rest rfl (by decide)

theorem eatSpLit_RPS (rest : List Char) :
    eatSpLit litRPS (' ' :: (litRPS ++ rest)) = some rest :=
  eatSpLit_chunk (c := 'r') rest rfl (by decide)

theorem eatSpLit_P (rest : List Char) :
    eatSpLit litP (' ' :: (litP ++ rest)) = some rest :=
  eatSpLit_chunk (c := '(') rest rfl (by decide)

theorem eatSpLit_MBS (rest : List Char) :
    eatSpLit litMBS (' ' :: (litMBS ++ rest)) = some rest :=
  eatSpLit_chunk (c := 'M') rest rfl (by decide)

theorem eatSpLit_AVG (rest : List Char) :
    eatSpLit litAVG (' ' :: (litAVG ++ rest)) = some rest :=
  eatSpLit_chunk (c := 'm') rest rfl (by decide)

theorem eatSpLit_MAX (rest : List Char) :
    eatSpLit litMAX (' ' :: (litMAX ++ rest)) = some rest :=
  eatSpLit_chunk (c := 'm') rest rfl (by decide)

theorem matchProd_pline (n : List Char) (r t a m : FloatLit) (post : List Char)
    (hn : n ≠ []) (hnd : ∀ c ∈ n, c.isDigit = true)
    (hr : r.valid) (ht : t.valid) (ha : a.valid) (hm : m.valid) :
    matchProdAt (plineChars n r t a m ++ post) =
      some ⟨n, r.render, t.render, a.render, m.render⟩ := by
  have hshape : plineChars n r t a m ++ post =
      n ++ (' ' :: (litRS ++ (' ' :: (r.render ++ (' ' :: (litRPS ++ (' ' :: (litP ++ (t.render ++ (' ' :: (litMBS ++ (' ' :: (a.render ++ (' ' :: (litAVG ++ (' ' :: (m.render ++ (' ' :: (litMAX ++ post))))))))))))))))))) := by
    simp only [plineChars, List.cons_append, List.append_assoc]
  rw [hshape]
  unfold matchProdAt
  rw [class1_digits_sp _ hn hnd]
  simp only [Option.some_bind]
  rw [eatSpLit_RS]
  simp only [Option.some_bind]
  rw [eatSpClass_chunk_sp _ (FloatLit.render_ne_nil hr) (FloatLit.render_dd hr)]
  simp only [Option.some_bind]
  rw [eatSpLit_RPS]
  simp only [Option.some_bind]
  rw [eatSpLit_P]
  simp only [Option.some_bind]
  rw [class1_dd_sp _ (FloatLit.render_ne_nil ht) (FloatLit.render_dd ht)]
  simp only [Option.some_bind]
  rw [eatSpLit_MBS]
  simp only [Option.some_bind]
  rw [eatSpClass_chunk_sp _ (FloatLit.render_ne_nil ha) (FloatLit.render_dd ha)]
  simp only [Option.some_bind]
  rw [eatSpLit_AVG]
  simp only [Option.some_bind]
  rw [eatSpClass_chunk_sp _ (FloatLit.render_ne_nil hm) (FloatLit.render_dd hm)]
  simp only [Option.some_bind]
  rw [eatSpLit_MAX]
  simp only [Option.some_bind]

theorem dropWhile_head_false {p : Char → Bool} {cs : List Char}
    (h : ∀ c ∈ cs, p c = false) : cs.dropWhile p = cs := by
  cases cs with
  | nil => rfl
  | cons c t => simp [List.dropWhile_cons, h c (by simp)]

theorem stripPy_of_nonspace {cs : List Char} (h : ∀ c ∈ cs, isPySpace c = false) :
    stripPy cs = cs := by
  unfold stripPy
  rw [dropWhile_head_false h,
    dropWhile_head_false (fun c hc => h c (List.mem_reverse.mp hc)),
    List.reverse_reverse]

theorem splitSign_cons_dd {c : Char} (t : List Char) (h : isDigitDot c = true) :
    splitSign (c :: t) = (1, c :: t) := by
  have h1 : ¬ c = '+' := by intro hc; subst hc; exact absurd h (by decide)
  have h2 : ¬ c = '-' := by intro hc; subst hc; exact absurd h (by decide)
  simp [splitSign, h1, h2]

theorem pyFloat_render {f : FloatLit} (h : f.valid) : pyFloat f.render = some f.val := by
  obtain ⟨hip, hfp, hne⟩ := h
  rcases f with ⟨ip, fp⟩
  have hdd := FloatLit.render_dd (f := ⟨ip, fp⟩) ⟨hip, hfp, hne⟩
  have hstrip : stripPy (FloatLit.render ⟨ip, fp⟩) = FloatLit.render ⟨ip, fp⟩ :=
    stripPy_of_nonspace fun c hc => not_space_of_dd (hdd c hc)
  cases fp with
  | none =>
    have hipne : ip ≠ [] := by simpa using hne
    have hren : FloatLit.render ⟨ip, none⟩ = ip := by simp [FloatLit.render]
    rw [hren] at hstrip ⊢
    obtain ⟨c, t, rfl⟩ : ∃ c t, ip = c :: t := by
      cases ip with
      | nil => exact absurd rfl hipne
      | cons c t => exact ⟨c, t, rfl⟩
    have hsgn : splitSign (c :: t) = (1, c :: t) :=
      splitSign_cons_dd t (dd_of_digit (hip c (by simp)))
    have hspan : spanB Char.isDigit (c :: t) = (c :: t, []) := spanB_all hip
    simp [pyFloat, hstrip, hsgn, hspan, expPart, applyExp, FloatLit.val, mantissaVal]
  | some d =>
    have hd : ∀ c ∈ d, c.isDigit = true := by simpa using hfp
    have hspan : spanB Char.isDigit (ip ++ '.' :: d) = (ip, '.' :: d) :=
      spanB_append_stop hip (c := '.') rfl (by decide)
    have hspan2 : spanB Char.isDigit d = (d, []) := spanB_all hd
    have hg : ¬ (ip = [] ∧ d = []) := by
      rintro ⟨rfl, rfl⟩
      exact hne (by simp)
    have hren : FloatLit.render ⟨ip, some d⟩ = ip ++ '.' :: d := by simp [FloatLit.render]
    rw [hren] at hstrip ⊢
    have hsgn : splitSign (ip ++ '.' :: d) = (1, ip ++ '.' :: d) := by
      cases ip with
      | nil => exact splitSign_cons_dd d (by decide)
      | cons c t =>
        simpa using splitSign_cons_dd (t ++ '.' :: d) (dd_of_digit (hip c (by simp)))
    simp [pyFloat, hstrip, hsgn, hspan, hspan2, hg, expPart, applyExp,
      FloatLit.val, mantissaVal]

theorem pyFloat_digits {n : List Char} (hne : n ≠ []) (hnd : ∀ c ∈ n, c.isDigit = true) :
    pyFloat n = some (natOfDigits n : ℚ) := by
  have h := pyFloat_render (f := ⟨n, none⟩) ⟨hnd, by simp, by simpa using hne⟩
  simpa [FloatLit.render, FloatLit.val, mantissaVal, natOfDigits] using h

theorem class1_head_false {p : Char → Bool} {c : Char} (cs : List Char) (h : p c = false) :
    class1 p (c :: cs) = none := by
  simp [class1, spanB, h]

theorem matchProdAt_cons_not_digit {c : Char} (cs : List Char) (h : c.isDigit = false) :
    matchProdAt (c :: cs) = none := by
  unfold matchProdAt
  rw [class1_head_false cs h]
  rfl

theorem searchProd_append_no_digit {pre : List Char} (rest : List Char)
    (h : ∀ c ∈ pre, c.isDigit = false) :
    searchProd (pre ++ rest) = searchProd rest := by
  induction pre with
  | nil => rfl
  | cons c pre ih =>
    have hc := h c (by simp)
    cases hrest : pre ++ rest with
    | nil =>
      have : rest = [] := by
        rcases List.append_eq_nil.mp hrest with ⟨-, h2⟩
        exact h2
      subst this
      simp only [List.append_nil] at hrest ⊢
      subst hrest
      simp [searchProd, matchProdAt_cons_not_digit _ hc]
    | cons d t =>
      rw [List.cons_append, hrest, searchProd, matchProdAt_cons_not_digit _ hc, ← hrest,
        ih fun x hx => h x (by simp [hx])]

theorem searchProd_of_match {cs : List Char} {g : ProdGroups}
    (hne : cs ≠ []) (h : matchProdAt cs = some g) : searchProd cs = some g := by
  cases cs with
  | nil => exact absurd rfl hne
  | cons c t => simp [searchProd, h]

/-- C2: a producer-output string that contains a line of the pattern
`<int> records sent, <float> records/sec (<float> MB/sec), <float> ms avg latency, <float> ms max latency`
(preceded by digit-free text, so the line is the leftmost match `re.search`
finds) parses to a metric set whose `records_sent`, `records_per_sec`,
`throughput_mb_sec`, `avg_latency_ms` and `max_latency_ms` are exactly the five
literal numbers of that line, converted to numeric values. -/
theorem C2_producer_line_extraction
    (pre n : List Char) (r t a m : FloatLit) (post : List Char)
    (hpre : ∀ c ∈ pre, c.isDigit = false)
    (hn : n ≠ []) (hnd : ∀ c ∈ n, c.isDigit = true)
    (hr : r.valid) (ht : t.valid) (ha : a.valid) (hm : m.valid) :
    parseProdChars (pre ++ (plineChars n r t a m ++ post)) =
      .ok ⟨some (natOfDigits n : ℚ), some r.val, some t.val, some a.val, some m.val⟩ := by
  have hs : searchProd (pre ++ (plineChars n r t a m ++ post)) =
      some ⟨n, r.render, t.render, a.render, m.render⟩ := by
    rw [searchProd_append_no_digit _ hpre]
    apply searchProd_of_match
    · cases n with
      | nil => exact absurd rfl hn
      | cons c n' => simp [plineChars]
    · exact matchProd_pline n r t a m post hn hnd hr ht ha hm
  unfold parseProdChars
  rw [hs]
  dsimp only []
  rw [pyFloat_digits hn hnd, pyFloat_render hr, pyFloat_render ht,
    pyFloat_render ha, pyFloat_render hm]

/-- C2 witness: the spec's example line
`1000000 records sent, 199960.01 records/sec (195.27 MB/sec), 2.41 ms avg latency, 445.00 ms max latency`
yields exactly its five literal numbers. -/
theorem C2_producer_line_extraction_witness :
    parseProdChars ([] ++ (plineChars "1000000".data ⟨"199960".data, some "01".data⟩
        ⟨"195".data, some "27".data⟩ ⟨"2".data, some "41".data⟩
        ⟨"445".data, some "00".data⟩ ++ [])) =
      .ok ⟨some (natOfDigits "1000000".data : ℚ),
           some (FloatLit.val ⟨"199960".data, some "01".data⟩),
           some (FloatLit.val ⟨"195".data, some "27".data⟩),
           some (FloatLit.val ⟨"2".data, some "41".data⟩),
           some (FloatLit.val ⟨"445".data, some "00".data⟩)⟩ :=
  C2_producer_line_extraction [] _ _ _ _ _ []
    (by decide) (by decide) (by decide)
    ⟨by decide, by decide, by decide⟩ ⟨by decide, by decide, by decide⟩
    ⟨by decide, by decide, by decide⟩ ⟨by decide, by decide, by decide⟩

/-- C10 counterexample: the claim says `_parse_producer_output` never raises,
but on this string the regex matches with capture groups `.` (the class `[\d.]`
accepts a lone dot) and `float(".")` raises an uncaught `ValueError`. -/
theorem C10_parse_raises_counterexample :
    parseProdChars
      "5 records sent, . records/sec (. MB/sec), . ms avg latency, . ms max latency".data
      = .error "ValueError" := by rfl

/-- C10 amended: whenever `_parse_producer_output` returns, the result is either
the empty metric set or has all five producer fields — never a proper non-empty
subset; but the function can raise `ValueError` when the pattern matches and a
captured group is not a valid float literal. -/
theorem C10_all_or_nothing (s : List Char) (m : ProducerMetrics)
    (h : parseProdChars s = .ok m) :
    m = {} ∨ (m.records_sent.isSome ∧ m.records_per_sec.isSome ∧
      m.throughput_mb_sec.isSome ∧ m.avg_latency_ms.isSome ∧ m.max_latency_ms.isSome) := by
  unfold parseProdChars at h
  split at h
  · injection h with h1
    exact Or.inl h1.symm
  · split at h
    · exact Except.noConfusion h
    · split at h
      · exact Except.noConfusion h
      · split at h
        · exact Except.noConfusion h
        · split at h
          · exact Except.noConfusion h
          · split at h
            · exact Except.noConfusion h
            · injection h with h1
              subst h1
              right
              simp

/-- C10 witness: the empty string parses to the empty metric set, which the
amended theorem classifies as the all-absent case. -/
theorem C10_all_or_nothing_witness :
    ({} : ProducerMetrics) = {} ∨
      (({} : ProducerMetrics).records_sent.isSome ∧
        ({} : ProducerMetrics).records_per_sec.isSome ∧
        ({} : ProducerMetrics).throughput_mb_sec.isSome ∧
        ({} : ProducerMetrics).avg_latency_ms.isSome ∧
        ({} : ProducerMetrics).max_latency_ms.isSome) :=
  C10_all_or_nothing "".data {} (by rfl)

/-- C5: a producer-output string in which `re.search` finds no match parses to
the empty metric set (no error), and a run whose subprocess exits with code 0
and whose stdout parses without raising is recorded with status `success` and
appended to `self.results`, however sparse the parsed metric set is. -/
theorem C5_no_match_empty_and_exit0_success :
    (∀ s : List Char, searchProd s = none → parseProdChars s = .ok {}) ∧
    (∀ (c : ProducerConfig) (out err : String) (el : ℚ) (ts : String) (m : ProducerMetrics),
      parse_producer_output out = .ok m →
      (run_producer_test c (.completed 0 out err el ts)).1.status = "success" ∧
      (run_producer_test c (.completed 0 out err el ts)).2 = true) := by
  constructor
  · intro s hs
    unfold parseProdChars
    rw [hs]
  · intro c out err el ts m hm
    unfold run_producer_test
    simp only [hm]
    exact ⟨rfl, rfl⟩

/-- C5 witness: `"no metrics"` has no match and parses empty; a concrete
exit-0 run with unparseable stdout is still a recorded success. -/
theorem C5_no_match_empty_and_exit0_success_witness :
    parseProdChars "no metrics".data = .ok {} ∧
    ((run_producer_test {topic := "p1-rf1"} (.completed 0 "x" "" 1 "ts")).1.status
        = "success" ∧
      (run_producer_test {topic := "p1-rf1"} (.completed 0 "x" "" 1 "ts")).2 = true) :=
  ⟨C5_no_match_empty_and_exit0_success.1 "no metrics".data (by rfl),
   C5_no_match_empty_and_exit0_success.2 {topic := "p1-rf1"} "x" "" 1 "ts" {} (by rfl)⟩

theorem splitSep_no_sep {sep : Char} {p : List Char} (h : sep ∉ p) :
    splitSep sep p = [p] := by
  induction p with
  | nil => rfl
  | cons c t ih =>
    have hc : ¬ c = sep := by
      intro hc
      exact h (by simp [hc])
    simp [splitSep, hc, ih fun hm => h (by simp [hm])]

theorem splitSep_append {sep : Char} {p : List Char} (rest : List Char) (h : sep ∉ p) :
    splitSep sep (p ++ sep :: rest) = p :: splitSep sep rest := by
  induction p with
  | nil => simp [splitSep]
  | cons c t ih =>
    have hc : ¬ c = sep := by
      intro hc
      exact h (by simp [hc])
    have hrec := ih fun hm => h (by simp [hm])
    simp only [List.cons_append, splitSep, if_neg hc, List.append_eq, hrec]

theorem splitSep_joinSep (sep : Char) (parts : List (List Char)) (hne : parts ≠ [])
    (h : ∀ p ∈ parts, sep ∉ p) :
    splitSep sep (joinSep sep parts) = parts := by
  induction parts with
  | nil => exact absurd rfl hne
  | cons p ps ih =>
    cases ps with
    | nil => simpa [joinSep] using splitSep_no_sep (h p (by simp))
    | cons q qs =>
      rw [show joinSep sep (p :: q :: qs) = p ++ sep :: joinSep sep (q :: qs) from rfl,
        splitSep_append _ (h p (by simp)),
        ih (by simp) fun x hx => h x (by simp [hx])]

theorem comma_not_mem_render {f : FloatLit} (h : f.valid) : ',' ∉ f.render := by
  intro hm
  exact ne_comma_of_dd (FloatLit.render_dd h ',' hm) rfl

theorem stripPy_render {f : FloatLit} (h : f.valid) : stripPy f.render = f.render :=
  stripPy_of_nonspace fun c hc => not_space_of_dd (FloatLit.render_dd h c hc)

theorem parse_consumer_lines_last (earlier : List (List Char)) (row : List Char)
    (h : isCandLine row = true) :
    parse_consumer_lines (earlier ++ [row]) = processRow row := by
  unfold parse_consumer_lines
  rw [List.reverse_append]
  simp [findCand, h]

theorem processRow_six (p0 p1 : List Char) (f2 f3 f4 f5 : FloatLit)
    (h0 : ',' ∉ p0) (h1 : ',' ∉ p1)
    (hv2 : f2.valid) (hv3 : f3.valid) (hv4 : f4.valid) (hv5 : f5.valid) :
    processRow (joinSep ',' [p0, p1, f2.render, f3.render, f4.render, f5.render]) =
      ⟨some f2.val, some f3.val, some f4.val, some f5.val, none, none⟩ := by
  have hsplit :=
    splitSep_joinSep ',' [p0, p1, f2.render, f3.render, f4.render, f5.render]
      (by simp)
      (by
        intro p hp
        simp only [List.mem_cons, List.not_mem_nil, or_false] at hp
        rcases hp with rfl | rfl | rfl | rfl | rfl | rfl
        · exact h0
        · exact h1
        · exact comma_not_mem_render hv2
        · exact comma_not_mem_render hv3
        · exact comma_not_mem_render hv4
        · exact comma_not_mem_render hv5)
  simp only [processRow]
  rw [hsplit]
  simp only [List.map_cons, List.map_nil, stripPy_render hv2, stripPy_render hv3,
    stripPy_render hv4, stripPy_render hv5]
  rw [if_pos (by simp)]
  rw [show ([stripPy p0, stripPy p1, f2.render, f3.render, f4.render,
      f5.render]).getD 2 ([] : List Char) = f2.render from rfl, pyFloat_render hv2]
  dsimp only []
  rw [show ([stripPy p0, stripPy p1, f2.render, f3.render, f4.render,
      f5.render]).getD 3 ([] : List Char) = f3.render from rfl, pyFloat_render hv3]
  dsimp only []
  rw [show ([stripPy p0, stripPy p1, f2.render, f3.render, f4.render,
      f5.render]).getD 4 ([] : List Char) = f4.render from rfl, pyFloat_render hv4]
  dsimp only []
  rw [show ([stripPy p0, stripPy p1, f2.render, f3.render, f4.render,
      f5.render]).getD 5 ([] : List Char) = f5.render from rfl, pyFloat_render hv5]
  dsimp only []
  rw [if_neg (by simp)]

theorem processRow_ten (p0 p1 p8 p9 : List Char) (f2 f3 f4 f5 f6 f7 : FloatLit)
    (h0 : ',' ∉ p0) (h1 : ',' ∉ p1) (h8 : ',' ∉ p8) (h9 : ',' ∉ p9)
    (hv2 : f2.valid) (hv3 : f3.valid) (hv4 : f4.valid) (hv5 : f5.valid)
    (hv6 : f6.valid) (hv7 : f7.valid) :
    processRow (joinSep ',' [p0, p1, f2.render, f3.render, f4.render, f5.render,
        f6.render, f7.render, p8, p9]) =
      ⟨some f2.val, some f3.val, some f4.val, some f5.val, some f6.val, some f7.val⟩ := by
  have hsplit :=
    splitSep_joinSep ',' [p0, p1, f2.render, f3.render, f4.render, f5.render,
        f6.render, f7.render, p8, p9]
      (by simp)
      (by
        intro p hp
        simp only [List.mem_cons, List.not_mem_nil, or_false] at hp
        rcases hp with rfl | rfl | rfl | rfl | rfl | rfl | rfl | rfl | rfl | rfl
        · exact h0
        · exact h1
        · exact comma_not_mem_render hv2
        · exact comma_not_mem_render hv3
        · exact comma_not_mem_render hv4
        · exact comma_not_mem_render hv5
        · exact comma_not_mem_render hv6
        · exact comma_not_mem_render hv7
        · exact h8
        · exact h9)
  simp only [processRow]
  rw [hsplit]
  simp only [List.map_cons, List.map_nil, stripPy_render hv2, stripPy_render hv3,
    stripPy_render hv4, stripPy_render hv5, stripPy_render hv6, stripPy_render hv7]
  rw [if_pos (by simp)]
  rw [show ([stripPy p0, stripPy p1, f2.render, f3.render, f4.render, f5.render,
      f6.render, f7.render, stripPy p8, stripPy p9]).getD 2 ([] : List Char) = f2.render
      from rfl, pyFloat_render hv2]
  dsimp only []
  rw [show ([stripPy p0, stripPy p1, f2.render, f3.render, f4.render, f5.render,
      f6.render, f7.render, stripPy p8, stripPy p9]).getD 3 ([] : List Char) = f3.render
      from rfl, pyFloat_render hv3]
  dsimp only []
  rw [show ([stripPy p0, stripPy p1, f2.render, f3.render, f4.render, f5.render,
      f6.render, f7.render, stripPy p8, stripPy p9]).getD 4 ([] : List Char) = f4.render
      from rfl, pyFloat_render hv4]
  dsimp only []
  rw [show ([stripPy p0, stripPy p1, f2.render, f3.render, f4.render, f5.render,
      f6.render, f7.render, stripPy p8, stripPy p9]).getD 5 ([] : List Char) = f5.render
      from rfl, pyFloat_render hv5]
  dsimp only []
  rw [if_pos (by simp)]
  rw [show ([stripPy p0, stripPy p1, f2.render, f3.render, f4.render, f5.render,
      f6.render, f7.render, stripPy p8, stripPy p9]).getD 6 ([] : List Char) = f6.render
      from rfl, pyFloat_render hv6]
  dsimp only []
  rw [show ([stripPy p0, stripPy p1, f2.render, f3.render, f4.render, f5.render,
      f6.render, f7.render, stripPy p8, stripPy p9]).getD 7 ([] : List Char) = f7.render
      from rfl, pyFloat_render hv7]

theorem pyFloat_500 : pyFloat "500.0".data = some 500 := by
  have h := pyFloat_render (f := ⟨"500".data, some "0".data⟩)
    ⟨by decide, by decide, by decide⟩
  rw [show FloatLit.render ⟨"500".data, some "0".data⟩ = "500.0".data from rfl] at h
  rw [h]
  norm_num [FloatLit.val, mantissaVal, show natOfDigits "500".data = 500 from rfl,
    show natOfDigits "0".data = 0 from rfl, show ("0".data).length = 1 from rfl]

theorem pyFloat_50 : pyFloat "50.0".data = some 50 := by
  have h := pyFloat_render (f := ⟨"50".data, some "0".data⟩)
    ⟨by decide, by decide, by decide⟩
  rw [show FloatLit.render ⟨"50".data, some "0".data⟩ = "50.0".data from rfl] at h
  rw [h]
  norm_num [FloatLit.val, mantissaVal, show natOfDigits "50".data = 50 from rfl,
    show natOfDigits "0".data = 0 from rfl, show ("0".data).length = 1 from rfl]

theorem pyFloat_100000 : pyFloat "100000".data = some 100000 := by
  rw [pyFloat_digits (by decide) (by decide),
    show natOfDigits "100000".data = 100000 from rfl]
  norm_num

theorem pyFloat_10000 : pyFloat "10000.0".data = some 10000 := by
  have h := pyFloat_render (f := ⟨"10000".data, some "0".data⟩)
    ⟨by decide, by decide, by decide⟩
  rw [show FloatLit.render ⟨"10000".data, some "0".data⟩ = "10000.0".data from rfl] at h
  rw [h]
  norm_num [FloatLit.val, mantissaVal, show natOfDigits "10000".data = 10000 from rfl,
    show natOfDigits "0".data = 0 from rfl, show ("0".data).length = 1 from rfl]

/-- C3: `_parse_consumer_output` takes, scanning the lines from the end
backward, the first non-blank line not starting with `start.time` as its sole
candidate row (the last data row in original order, whatever precedes it); a
candidate row with exactly 6 comma-separated fields yields
`data_consumed_mb, throughput_mb_sec, messages_consumed, records_per_sec` from
1-indexed fields 3, 4, 5, 6 and no rebalance/fetch fields; with 10 fields it
additionally yields `rebalance_time_ms, fetch_time_ms` from fields 7, 8; and
the spec's header-plus-data-row example yields
`500.0, 50.0, 100000, 10000.0` with no rebalance/fetch fields. -/
theorem C3_consumer_selection_and_fields :
    (∀ (earlier : List (List Char)) (p0 p1 : List Char) (f2 f3 f4 f5 : FloatLit),
      isCandLine (joinSep ',' [p0, p1, f2.render, f3.render, f4.render, f5.render]) = true →
      ',' ∉ p0 → ',' ∉ p1 → f2.valid → f3.valid → f4.valid → f5.valid →
      parse_consumer_lines
          (earlier ++ [joinSep ',' [p0, p1, f2.render, f3.render, f4.render, f5.render]]) =
        ⟨some f2.val, some f3.val, some f4.val, some f5.val, none, none⟩) ∧
    (∀ (earlier : List (List Char)) (p0 p1 p8 p9 : List Char)
        (f2 f3 f4 f5 f6 f7 : FloatLit),
      isCandLine (joinSep ',' [p0, p1, f2.render, f3.render, f4.render, f5.render,
        f6.render, f7.render, p8, p9]) = true →
      ',' ∉ p0 → ',' ∉ p1 → ',' ∉ p8 → ',' ∉ p9 →
      f2.valid → f3.valid → f4.valid → f5.valid → f6.valid → f7.valid →
      parse_consumer_lines (earlier ++ [joinSep ',' [p0, p1, f2.render, f3.render,
          f4.render, f5.render, f6.render, f7.render, p8, p9]]) =
        ⟨some f2.val, some f3.val, some f4.val, some f5.val, some f6.val, some f7.val⟩) ∧
    parse_consumer_output
        "start.time,end.time,data.consumed.in.MB,MB.sec,data.consumed.in.nMsg,nMsg.sec\n09:00:00,09:00:10,500.0,50.0,100000,10000.0" =
      ⟨some 500, some 50, some 100000, some 10000, none, none⟩ := by
  refine ⟨?_, ?_, ?_⟩
  · intro earlier p0 p1 f2 f3 f4 f5 hcand h0 h1 hv2 hv3 hv4 hv5
    rw [parse_consumer_lines_last _ _ hcand]
    exact processRow_six p0 p1 f2 f3 f4 f5 h0 h1 hv2 hv3 hv4 hv5
  · intro earlier p0 p1 p8 p9 f2 f3 f4 f5 f6 f7 hcand h0 h1 h8 h9 hv2 hv3 hv4 hv5 hv6 hv7
    rw [parse_consumer_lines_last _ _ hcand]
    exact processRow_ten p0 p1 p8 p9 f2 f3 f4 f5 f6 f7 h0 h1 h8 h9 hv2 hv3 hv4 hv5 hv6 hv7
  · rw [parse_consumer_output,
      show splitSep '\n'
        (stripPy ("start.time,end.time,data.consumed.in.MB,MB.sec,data.consumed.in.nMsg,nMsg.sec\n09:00:00,09:00:10,500.0,50.0,100000,10000.0").data) =
        [("start.time,end.time,data.consumed.in.MB,MB.sec,data.consumed.in.nMsg,nMsg.sec").data]
          ++ [("09:00:00,09:00:10,500.0,50.0,100000,10000.0").data] from rfl,
      parse_consumer_lines_last _ _ (by rfl)]
    simp only [processRow]
    rw [show (splitSep ',' ("09:00:00,09:00:10,500.0,50.0,100000,10000.0").data).map stripPy
        = [("09:00:00").data, ("09:00:10").data, ("500.0").data, ("50.0").data,
           ("100000").data, ("10000.0").data] from rfl]
    rw [if_pos (by simp)]
    rw [show (["09:00:00".data, "09:00:10".data, "500.0".data, "50.0".data, "100000".data,
      "10000.0".data]).getD 2 ([] : List Char) = "500.0".data from rfl, pyFloat_500]
    dsimp only []
    rw [show (["09:00:00".data, "09:00:10".data, "500.0".data, "50.0".data, "100000".data,
      "10000.0".data]).getD 3 ([] : List Char) = "50.0".data from rfl, pyFloat_50]
    dsimp only []
    rw [show (["09:00:00".data, "09:00:10".data, "500.0".data, "50.0".data, "100000".data,
      "10000.0".data]).getD 4 ([] : List Char) = "100000".data from rfl, pyFloat_100000]
    dsimp only []
    rw [show (["09:00:00".data, "09:00:10".data, "500.0".data, "50.0".data, "100000".data,
      "10000.0".data]).getD 5 ([] : List Char) = "10000.0".data from rfl, pyFloat_10000]
    dsimp only []
    rw [if_neg (by simp)]

/-- C3 witness: a concrete header line followed by a concrete 6-field data row,
via the general theorem. -/
theorem C3_consumer_selection_and_fields_witness :
    parse_consumer_lines
        ([("start.time,end.time").data] ++
          [joinSep ',' [("09:00:00").data, ("09:00:10").data,
            FloatLit.render ⟨"500".data, some "0".data⟩,
            FloatLit.render ⟨"50".data, some "0".data⟩,
            FloatLit.render ⟨"100000".data, none⟩,
            FloatLit.render ⟨"10000".data, some "0".data⟩]]) =
      ⟨some (FloatLit.val ⟨"500".data, some "0".data⟩),
       some (FloatLit.val ⟨"50".data, some "0".data⟩),
       some (FloatLit.val ⟨"100000".data, none⟩),
       some (FloatLit.val ⟨"10000".data, some "0".data⟩), none, none⟩ :=
  C3_consumer_selection_and_fields.1 [("start.time,end.time").data]
    ("09:00:00").data ("09:00:10").data _ _ _ _
    (by decide) (by decide) (by decide)
    ⟨by decide, by decide, by decide⟩ ⟨by decide, by decide, by decide⟩
    ⟨by decide, by decide, by decide⟩ ⟨by decide, by decide, by decide⟩

/-- C6: `_parse_consumer_output` is total on malformed input: a candidate row
with fewer than 6 comma-separated fields yields no metrics (the concrete
3-field string included); a field that fails `float` conversion is dropped
(the row `x,y,500.0,bad,100000,10000.0` keeps only `data_consumed_mb`,
conversion having stopped at the bad field without failing the parse); and
once the first candidate row (scanning from the end) is chosen, the result
depends only on it — earlier lines are never consulted.  The `except
(ValueError, IndexError)` handler catches the only exceptions the loop body
can raise, so the embedding is a total function. -/
theorem C6_consumer_malformed_tolerance :
    (∀ (earlier : List (List Char)) (row : List Char),
      isCandLine row = true → (splitSep ',' row).length < 6 →
      parse_consumer_lines (earlier ++ [row]) = ({} : ConsumerMetrics)) ∧
    parse_consumer_output "a,b,c" = ({} : ConsumerMetrics) ∧
    parse_consumer_output "x,y,500.0,bad,100000,10000.0" =
      { data_consumed_mb := some 500 } ∧
    (∀ (earlier : List (List Char)) (row : List Char),
      isCandLine row = true →
      parse_consumer_lines (earlier ++ [row]) = processRow row) := by
  refine ⟨?_, by rfl, ?_, ?_⟩
  · intro earlier row hcand hlt
    rw [parse_consumer_lines_last _ _ hcand]
    simp only [processRow]
    rw [if_neg (by rw [List.length_map]; omega)]
  · rw [parse_consumer_output,
      show splitSep '\n' (stripPy ("x,y,500.0,bad,100000,10000.0").data) =
        [] ++ [("x,y,500.0,bad,100000,10000.0").data] from rfl,
      parse_consumer_lines_last _ _ (by rfl)]
    simp only [processRow]
    rw [show (splitSep ',' ("x,y,500.0,bad,100000,10000.0").data).map stripPy =
        [("x").data, ("y").data, ("500.0").data, ("bad").data, ("100000").data,
         ("10000.0").data] from rfl]
    rw [if_pos (by simp)]
    rw [show (["x".data, "y".data, "500.0".data, "bad".data, "100000".data,
      "10000.0".data]).getD 2 ([] : List Char) = "500.0".data from rfl, pyFloat_500]
    dsimp only []
    rw [show (["x".data, "y".data, "500.0".data, "bad".data, "100000".data,
      "10000.0".data]).getD 3 ([] : List Char) = "bad".data from rfl,
      show pyFloat "bad".data = none from rfl]
  · intro earlier row hcand
    exact parse_consumer_lines_last earlier row hcand

/-- C6 witness: a concrete 3-field candidate row below an earlier data line
extracts nothing. -/
theorem C6_consumer_malformed_tolerance_witness :
    parse_consumer_lines ([("1,2,3,4,5,6").data] ++ [("a,b,c").data]) =
      ({} : ConsumerMetrics) :=
  C6_consumer_malformed_tolerance.1 [("1,2,3,4,5,6").data] ("a,b,c").data
    (by decide) (by decide)

theorem suite_fold_producer (l : List (ProducerConfig × ProcResult)) (acc : List Outcome) :
    (l.foldl (fun acc cp =>
        let r := run_producer_test cp.1 cp.2
        if r.2 then acc ++ [r.1] else acc) acc) =
      acc ++ l.filterMap producerRecord := by
  induction l generalizing acc with
  | nil => simp
  | cons x xs ih =>
    simp only [List.foldl_cons, List.filterMap_cons]
    cases hx : (run_producer_test x.1 x.2).2 with
    | false => simp [producerRecord, hx, ih]
    | true => simp [producerRecord, hx, ih, List.append_assoc]

theorem suite_fold_consumer (l : List (ConsumerConfig × ProcResult)) (acc : List Outcome) :
    (l.foldl (fun acc cp =>
        let r := run_consumer_test cp.1 cp.2
        if r.2 then acc ++ [r.1] else acc) acc) =
      acc ++ l.filterMap consumerRecord := by
  induction l generalizing acc with
  | nil => simp
  | cons x xs ih =>
    simp only [List.foldl_cons, List.filterMap_cons]
    cases hx : (run_consumer_test x.1 x.2).2 with
    | false => simp [consumerRecord, hx, ih]
    | true => simp [consumerRecord, hx, ih, List.append_assoc]

theorem length_filterMap_all_some {α β : Type} (f : α → Option β) (l : List α)
    (h : ∀ x ∈ l, (f x).isSome) : (l.filterMap f).length = l.length := by
  induction l with
  | nil => rfl
  | cons x xs ih =>
    rw [List.filterMap_cons]
    cases hx : f x with
    | none => exact absurd (hx ▸ h x (by simp)) (by simp)
    | some b => simp [ih fun z hz => h z (by simp [hz])]

/-- C1 counterexample: one producer config (N = 1, M = 0) whose invocation
times out yields an empty accumulated sequence, not a sequence of length 1 —
the timeout branch of `run_producer_test` returns without appending to
`self.results`. -/
theorem C1_suite_length_counterexample :
    (run_test_suite [({topic := "t"}, ProcResult.timedOut)] none).length ≠ 1 := by
  decide

/-- C1 amended: the accumulated sequence is, in submission order (producer
block first, then consumers), exactly the records of the tests that were
appended: those whose subprocess returned (exit 0 with a parse that did not
raise, status `success`, or non-zero exit, status `failed`).  Tests that time
out, whose invocation raises, or whose exit-0 stdout makes the parser raise
contribute no record, so the length equals N + M exactly when every test is
recorded. -/
theorem C1_suite_accumulation (ps : List (ProducerConfig × ProcResult))
    (cs : Option (List (ConsumerConfig × ProcResult))) :
    run_test_suite ps cs =
      ps.filterMap producerRecord ++ (cs.getD []).filterMap consumerRecord ∧
    ((∀ cp ∈ ps, (producerRecord cp).isSome) →
      (∀ cp ∈ cs.getD [], (consumerRecord cp).isSome) →
      (run_test_suite ps cs).length = ps.length + (cs.getD []).length) := by
  have hmain : run_test_suite ps cs =
      ps.filterMap producerRecord ++ (cs.getD []).filterMap consumerRecord := by
    unfold run_test_suite
    cases cs with
    | none => simp [suite_fold_producer]
    | some cl => simp [suite_fold_producer, suite_fold_consumer]
  refine ⟨hmain, fun hp hc => ?_⟩
  rw [hmain, List.length_append, length_filterMap_all_some _ _ hp,
    length_filterMap_all_some _ _ hc]

/-- C1 witness: one completed producer test and one completed consumer test
give an accumulated sequence of length `1 + 1`. -/
theorem C1_suite_accumulation_witness :
    (run_test_suite [({topic := "t"}, ProcResult.completed 0 "" "" 1 "ts")]
        (some [({topic := "u"}, ProcResult.completed 0 "" "" 1 "ts")])).length =
      ([({topic := "t"}, ProcResult.completed 0 "" "" 1 "ts")] :
        List (ProducerConfig × ProcResult)).length +
      ((some [({topic := "u"}, ProcResult.completed 0 "" "" 1 "ts")] :
        Option (List (ConsumerConfig × ProcResult))).getD []).length :=
  (C1_suite_accumulation _ _).2 (by decide) (by decide)

/-- C7: with zero successful results `generate_html_report` returns nothing;
with exactly one successful result (of either mode) it returns a report whose
peak-throughput callout is that entry's `throughput_mb_sec` and whose
best-configuration label is that entry's `test_name`. -/
theorem C7_report_gating :
    (∀ rs : List Outcome, successes rs = [] → generate_html_report rs = .ok none) ∧
    (∀ (rs : List Outcome) (o : Outcome) (q : ℚ),
      successes rs = [o] → o.throughput_mb_sec = some q →
      (o.test_type = "producer" ∨ o.test_type = "consumer") →
      ∃ r : ReportSummary, generate_html_report rs = .ok (some r) ∧
        r.max_throughput = q ∧ r.best_test = o.test_name) := by
  constructor
  · intro rs h
    unfold generate_html_report
    rw [if_pos (by simp [h])]
  · intro rs o q hs hq htype
    unfold generate_html_report
    rw [if_neg (by simp [hs])]
    rcases htype with ht | ht
    · have hprod : producerRows rs = [o] := by
        unfold producerRows
        rw [hs]
        simp [ht]
      rw [hprod]
      simp only [List.isEmpty_cons, Bool.false_eq_true, if_false]
      rw [show maxBest [o] = some (q, o.test_name) from by simp [maxBest, hq]]
      exact ⟨_, rfl, rfl, rfl⟩
    · have hprod : producerRows rs = [] := by
        unfold producerRows
        rw [hs]
        simp [ht]
      have hcons : consumerRows rs = [o] := by
        unfold consumerRows
        rw [hs]
        simp [ht]
      rw [hprod, hcons]
      simp only [List.isEmpty_nil, if_true]
      rw [show maxBest [o] = some (q, o.test_name) from by simp [maxBest, hq]]
      exact ⟨_, rfl, rfl, rfl⟩

/-- C7 witness: one successful producer entry with throughput `7`. -/
theorem C7_report_gating_witness :
    ∃ r : ReportSummary, generate_html_report [oSingle] = .ok (some r) ∧
      r.max_throughput = 7 ∧ r.best_test = oSingle.test_name :=
  C7_report_gating.2 [oSingle] oSingle 7 rfl rfl (Or.inl rfl)

/-- C4 counterexample: a successful producer result on `custom-topic` (not in
the canonical list) is present in the producer subset, yet the reindexed
summary table has no rows at all — `reindex([t for t in topic_order if t in
stats.index])` drops non-canonical topics instead of appending them in
encounter order. -/
theorem C4_noncanonical_dropped_counterexample :
    oCustomTopic.topic = some "custom-topic" ∧
    producerRows [oCustomTopic] = [oCustomTopic] ∧
    tableTopics (producerRows [oCustomTopic]) = [] :=
  ⟨rfl, rfl, rfl⟩

/-- C4 amended: in each per-mode summary table the topic rows are exactly the
canonical topics that occur among that mode's successful results, listed in the
fixed canonical order (a sublist of `topic_order`); topics outside the
canonical list are omitted from the table rather than shown in encounter
order. -/
theorem C4_tableTopics_canonical (rs : List Outcome) :
    List.Sublist (tableTopics (producerRows rs)) topic_order ∧
    (∀ t, t ∈ tableTopics (producerRows rs) ↔
      t ∈ topic_order ∧ t ∈ groupTopics (producerRows rs)) ∧
    List.Sublist (tableTopics (consumerRows rs)) topic_order ∧
    (∀ t, t ∈ tableTopics (consumerRows rs) ↔
      t ∈ topic_order ∧ t ∈ groupTopics (consumerRows rs)) := by
  refine ⟨List.filter_sublist _, ?_, List.filter_sublist _, ?_⟩ <;>
    · intro t
      simp [tableTopics, List.mem_filter]

theorem rintHE_intCast (k : ℤ) : rintHE (k : ℚ) = k := by
  unfold rintHE
  rw [Int.floor_intCast]
  norm_num

theorem num_cast_of_den_one {q : ℚ} (h : q.den = 1) : (q.num : ℚ) = q := by
  have h2 := Rat.num_div_den q
  rw [h] at h2
  simpa using h2

theorem topicThroughputs_eq_claim_filter (rs : List Outcome) (t : String) :
    topicThroughputs (producerRows rs) t =
      (rs.filter fun o => o.status == "success" &&
        (o.test_type == "producer" && o.topic == some t)).filterMap
        (fun o => o.throughput_mb_sec) := by
  unfold topicThroughputs producerRows successes
  rw [List.filter_filter, List.filter_filter]
  congr 1
  apply List.filter_congr
  intro a _
  simp [Bool.and_comm, Bool.and_left_comm, Bool.and_assoc]

/-- C8 counterexample: two successful producer runs on `p1-rf1` with
throughputs `1` and `1.125` have arithmetic mean `17/16 = 1.0625`, but the
summary-table cell shows `round(1.0625, 2) = 1.06 = 53/50` — the displayed
per-topic value is the mean rounded to 2 decimals, not the mean. -/
theorem C8_rounding_counterexample :
    producerShownThroughput [oHalfA, oHalfB] "p1-rf1" ≠
      claimTopicMeanThroughput [oHalfA, oHalfB] "p1-rf1" := by
  have h1 : producerShownThroughput [oHalfA, oHalfB] "p1-rf1" = 53 / 50 := by
    rw [producerShownThroughput,
      show topicThroughputs (producerRows [oHalfA, oHalfB]) "p1-rf1" = [1, 9 / 8]
        from rfl,
      show meanQ [1, 9 / 8] = 17 / 16 from by norm_num [meanQ],
      rnd2, show (17 / 16 : ℚ) * 100 = 425 / 4 from by norm_num,
      show rintHE (425 / 4 : ℚ) = 106 from by norm_num [rintHE]]
    norm_num
  have h2 : claimTopicMeanThroughput [oHalfA, oHalfB] "p1-rf1" = 17 / 16 := by
    rw [claimTopicMeanThroughput,
      show ((([oHalfA, oHalfB] : List Outcome).filter fun o => o.status == "success" &&
          (o.test_type == "producer" && o.topic == some "p1-rf1")).filterMap
          (fun o => o.throughput_mb_sec)) = [1, 9 / 8] from rfl]
    norm_num [meanQ]
  rw [h1, h2]
  norm_num

/-- C8 amended: the per-topic producer cell shown in the report equals the
arithmetic mean of the `throughput_mb_sec` values of all Success producer
outcomes sharing that topic, rounded half-to-even to 2 decimal places; it
equals the exact mean precisely when that mean has at most two decimal places
(`mean * 100` integral). -/
theorem C8_topic_mean_rounded (rs : List Outcome) (t : String) :
    producerShownThroughput rs t = rnd2 (claimTopicMeanThroughput rs t) ∧
    ((claimTopicMeanThroughput rs t * 100).den = 1 →
      producerShownThroughput rs t = claimTopicMeanThroughput rs t) := by
  have hbase : producerShownThroughput rs t = rnd2 (claimTopicMeanThroughput rs t) := by
    unfold producerShownThroughput claimTopicMeanThroughput
    rw [topicThroughputs_eq_claim_filter]
  refine ⟨hbase, fun hden => ?_⟩
  rw [hbase]
  have hq : ((claimTopicMeanThroughput rs t * 100).num : ℚ) =
      claimTopicMeanThroughput rs t * 100 := num_cast_of_den_one hden
  have hr : rintHE (claimTopicMeanThroughput rs t * 100) =
      (claimTopicMeanThroughput rs t * 100).num := by
    conv_lhs => rw [← hq]
    rw [rintHE_intCast]
  rw [rnd2, hr, hq, mul_div_assoc]
  norm_num

/-- C8 witness: with a single `p1-rf1` producer success of integral throughput
`2` the shown cell equals the exact mean. -/
theorem C8_topic_mean_rounded_witness :
    producerShownThroughput [oWhole] "p1-rf1" =
      claimTopicMeanThroughput [oWhole] "p1-rf1" :=
  (C8_topic_mean_rounded [oWhole] "p1-rf1").2 (by
    rw [claimTopicMeanThroughput,
      show ((([oWhole] : List Outcome).filter fun o => o.status == "success" &&
          (o.test_type == "producer" && o.topic == some "p1-rf1")).filterMap
          (fun o => o.throughput_mb_sec)) = [2] from rfl,
      show meanQ [2] = 2 from by norm_num [meanQ]]
    norm_num)

theorem lookup_cons_hit {β : Type} (k : String) (v : β) (rest : List (String × β)) :
    List.lookup k ((k, v) :: rest) = some v := by
  simp [List.lookup]

theorem lookup_cons_miss {β : Type} {k k' : String} (h : (k == k') = false) (v : β)
    (rest : List (String × β)) :
    List.lookup k ((k', v) :: rest) = List.lookup k rest := by
  simp [List.lookup, h]

theorem lookup_optF_ne {α : Type} {k k' : String} (h : (k == k') = false)
    (f : α → JVal) (v : Option α) (rest : List (String × JVal)) :
    List.lookup k (optF k' f v ++ rest) = List.lookup k rest := by
  cases v with
  | none => rfl
  | some x => simp [optF, List.lookup, h]

theorem lookup_optF_none {α : Type} {k k' : String} (h : (k == k') = false)
    (f : α → JVal) (v : Option α) :
    List.lookup k (optF k' f v) = none := by
  cases v with
  | none => rfl
  | some x => simp [optF, List.lookup, h]

theorem lookup_optF_self {α : Type} (k : String) (f : α → JVal) (v : Option α)
    (rest : List (String × JVal)) (hrest : List.lookup k rest = none) :
    List.lookup k (optF k f v ++ rest) = v.map f := by
  cases v with
  | none => simpa [optF] using hrest
  | some x => simp [optF, List.lookup]

theorem lookup_optF_self_nil {α : Type} (k : String) (f : α → JVal) (v : Option α) :
    List.lookup k (optF k f v) = v.map f := by
  cases v with
  | none => rfl
  | some x => simp [optF, List.lookup]

theorem look_test_name (o : Outcome) :
    List.lookup "test_name" (outcomeToJson o) = some (JVal.s o.test_name) := by
  unfold outcomeToJson
  simp only [List.append_assoc, List.cons_append, List.nil_append]
  rw [lookup_cons_hit]

theorem look_test_type (o : Outcome) :
    List.lookup "test_type" (outcomeToJson o) = some (JVal.s o.test_type) := by
  unfold outcomeToJson
  simp only [List.append_assoc, List.cons_append, List.nil_append]
  rw [lookup_cons_miss (by decide), lookup_cons_hit]

theorem look_status (o : Outcome) :
    List.lookup "status" (outcomeToJson o) = some (JVal.s o.status) := by
  unfold outcomeToJson
  simp only [List.append_assoc, List.cons_append, List.nil_append]
  rw [lookup_cons_miss (by decide), lookup_cons_miss (by decide), lookup_cons_hit]

theorem look_topic (o : Outcome) :
    List.lookup "topic" (outcomeToJson o) = o.topic.map JVal.s := by
  have hrest : List.lookup "topic" (optF "num_records" JVal.i o.num_records ++ (optF "record_size" JVal.i o.record_size ++ (optF "messages" JVal.i o.messages ++ (optF "acks" JVal.s o.acks ++ (optF "error" JVal.s o.error ++ (optF "elapsed_time" JVal.q o.elapsed_time ++ (optF "timestamp" JVal.s o.timestamp ++ (optF "records_sent" JVal.q o.records_sent ++ (optF "records_per_sec" JVal.q o.records_per_sec ++ (optF "throughput_mb_sec" JVal.q o.throughput_mb_sec ++ (optF "avg_latency_ms" JVal.q o.avg_latency_ms ++ (optF "max_latency_ms" JVal.q o.max_latency_ms ++ (optF "data_consumed_mb" JVal.q o.data_consumed_mb ++ (optF "messages_consumed" JVal.q o.messages_consumed ++ (optF "rebalance_time_ms" JVal.q o.rebalance_time_ms ++ (optF "fetch_time_ms" JVal.q o.fetch_time_ms)))))))))))))))) = none := by
    rw [lookup_optF_ne (by decide), lookup_optF_ne (by decide), lookup_optF_ne (by decide), lookup_optF_ne (by decide), lookup_optF_ne (by decide), lookup_optF_ne (by decide), lookup_optF_ne (by decide), lookup_optF_ne (by decide), lookup_optF_ne (by decide), lookup_optF_ne (by decide), lookup_optF_ne (by decide), lookup_optF_ne (by decide), lookup_optF_ne (by decide), lookup_optF_ne (by decide), lookup_optF_ne (by decide), lookup_optF_none (by decide)]
  unfold outcomeToJson
  simp only [List.append_assoc, List.cons_append, List.nil_append]
  rw [lookup_cons_miss (by decide), lookup_cons_miss (by decide), lookup_cons_miss (by decide), lookup_optF_self _ _ _ _ hrest]

theorem look_num_records (o : Outcome) :
    List.lookup "num_records" (outcomeToJson o) = o.num_records.map JVal.i := by
  have hrest : List.lookup "num_records" (optF "record_size" JVal.i o.record_size ++ (optF "messages" JVal.i o.messages ++ (optF "acks" JVal.s o.acks ++ (optF "error" JVal.s o.error ++ (optF "elapsed_time" JVal.q o.elapsed_time ++ (optF "timestamp" JVal.s o.timestamp ++ (optF "records_sent" JVal.q o.records_sent ++ (optF "records_per_sec" JVal.q o.records_per_sec ++ (optF "throughput_mb_sec" JVal.q o.throughput_mb_sec ++ (optF "avg_latency_ms" JVal.q o.avg_latency_ms ++ (optF "max_latency_ms" JVal.q o.max_latency_ms ++ (optF "data_consumed_mb" JVal.q o.data_consumed_mb ++ (optF "messages_consumed" JVal.q o.messages_consumed ++ (optF "rebalance_time_ms" JVal.q o.rebalance_time_ms ++ (optF "fetch_time_ms" JVal.q o.fetch_time_ms))))))))))))))) = none := by
    rw [lookup_optF_ne (by decide), lookup_optF_ne (by decide), lookup_optF_ne (by decide), lookup_optF_ne (by decide), lookup_optF_ne (by decide), lookup_optF_ne (by decide), lookup_optF_ne (by decide), lookup_optF_ne (by decide), lookup_optF_ne (by decide), lookup_optF_ne (by decide), lookup_optF_ne (by decide), lookup_optF_ne (by decide), lookup_optF_ne (by decide), lookup_optF_ne (by decide), lookup_optF_none (by decide)]
  unfold outcomeToJson
  simp only [List.append_assoc, List.cons_append, List.nil_append]
  rw [lookup_cons_miss (by decide), lookup_cons_miss (by decide), lookup_cons_miss (by decide), lookup_optF_ne (by decide), lookup_optF_self _ _ _ _ hrest]

theorem look_record_size (o : Outcome) :
    List.lookup "record_size" (outcomeToJson o) = o.record_size.map JVal.i := by
  have hrest : List.lookup "record_size" (optF "messages" JVal.i o.messages ++ (optF "acks" JVal.s o.acks ++ (optF "error" JVal.s o.error ++ (optF "elapsed_time" JVal.q o.elapsed_time ++ (optF "timestamp" JVal.s o.timestamp ++ (optF "records_sent" JVal.q o.records_sent ++ (optF "records_per_sec" JVal.q o.records_per_sec ++ (optF "throughput_mb_sec" JVal.q o.throughput_mb_sec ++ (optF "avg_latency_ms" JVal.q o.avg_latency_ms ++ (optF "max_latency_ms" JVal.q o.max_latency_ms ++ (optF "data_consumed_mb" JVal.q o.data_consumed_mb ++ (optF "messages_consumed" JVal.q o.messages_consumed ++ (optF "rebalance_time_ms" JVal.q o.rebalance_time_ms ++ (optF "fetch_time_ms" JVal.q o.fetch_time_ms)))))))))))))) = none := by
    rw [lookup_optF_ne (by decide), lookup_optF_ne (by decide), lookup_optF_ne (by decide), lookup_optF_ne (by decide), lookup_optF_ne (by decide), lookup_optF_ne (by decide), lookup_optF_ne (by decide), lookup_optF_ne (by decide), lookup_optF_ne (by decide), lookup_optF_ne (by decide), lookup_optF_ne (by decide), lookup_optF_ne (by decide), lookup_optF_ne (by decide), lookup_optF_none (by decide)]
  unfold outcomeToJson
  simp only [List.append_assoc, List.cons_append, List.nil_append]
  rw [lookup_cons_miss (by decide), lookup_cons_miss (by decide), lookup_cons_miss (by decide), lookup_optF_ne (by decide), lookup_optF_ne (by decide), lookup_optF_self _ _ _ _ hrest]

theorem look_messages (o : Outcome) :
    List.lookup "messages" (outcomeToJson o) = o.messages.map JVal.i := by
  have hrest : List.lookup "messages" (optF "acks" JVal.s o.acks ++ (optF "error" JVal.s o.error ++ (optF "elapsed_time" JVal.q o.elapsed_time ++ (optF "timestamp" JVal.s o.timestamp ++ (optF "records_sent" JVal.q o.records_sent ++ (optF "records_per_sec" JVal.q o.records_per_sec ++ (optF "throughput_mb_sec" JVal.q o.throughput_mb_sec ++ (optF "avg_latency_ms" JVal.q o.avg_latency_ms ++ (optF "max_latency_ms" JVal.q o.max_latency_ms ++ (optF "data_consumed_mb" JVal.q o.data_consumed_mb ++ (optF "messages_consumed" JVal.q o.messages_consumed ++ (optF "rebalance_time_ms" JVal.q o.rebalance_time_ms ++ (optF "fetch_time_ms" JVal.q o.fetch_time_ms))))))))))))) = none := by
    rw [lookup_optF_ne (by decide), lookup_optF_ne (by decide), lookup_optF_ne (by decide), lookup_optF_ne (by decide), lookup_optF_ne (by decide), lookup_optF_ne (by decide), lookup_optF_ne (by decide), lookup_optF_ne (by decide), lookup_optF_ne (by decide), lookup_optF_ne (by decide), lookup_optF_ne (by decide), lookup_optF_ne (by decide), lookup_optF_none (by decide)]
  unfold outcomeToJson
  simp only [List.append_assoc, List.cons_append, List.nil_append]
  rw [lookup_cons_miss (by decide), lookup_cons_miss (by decide), lookup_cons_miss (by decide), lookup_optF_ne (by decide), lookup_optF_ne (by decide), lookup_optF_ne (by decide), lookup_optF_self _ _ _ _ hrest]

theorem look_acks (o : Outcome) :
    List.lookup "acks" (outcomeToJson o) = o.acks.map JVal.s := by
  have hrest : List.lookup "acks" (optF "error" JVal.s o.error ++ (optF "elapsed_time" JVal.q o.elapsed_time ++ (optF "timestamp" JVal.s o.timestamp ++ (optF "records_sent" JVal.q o.records_sent ++ (optF "records_per_sec" JVal.q o.records_per_sec ++ (optF "throughput_mb_sec" JVal.q o.throughput_mb_sec ++ (optF "avg_latency_ms" JVal.q o.avg_latency_ms ++ (optF "max_latency_ms" JVal.q o.max_latency_ms ++ (optF "data_consumed_mb" JVal.q o.data_consumed_mb ++ (optF "messages_consumed" JVal.q o.messages_consumed ++ (optF "rebalance_time_ms" JVal.q o.rebalance_time_ms ++ (optF "fetch_time_ms" JVal.q o.fetch_time_ms)))))))))))) = none := by
    rw [lookup_optF_ne (by decide), lookup_optF_ne (by decide), lookup_optF_ne (by decide), lookup_optF_ne (by decide), lookup_optF_ne (by decide), lookup_optF_ne (by decide), lookup_optF_ne (by decide), lookup_optF_ne (by decide), lookup_optF_ne (by decide), lookup_optF_ne (by decide), lookup_optF_ne (by decide), lookup_optF_none (by decide)]
  unfold outcomeToJson
  simp only [List.append_assoc, List.cons_append, List.nil_append]
  rw [lookup_cons_miss (by decide), lookup_cons_miss (by decide), lookup_cons_miss (by decide), lookup_optF_ne (by decide), lookup_optF_ne (by decide), lookup_optF_ne (by decide), lookup_optF_ne (by decide), lookup_optF_self _ _ _ _ hrest]

theorem look_error (o : Outcome) :
    List.lookup "error" (outcomeToJson o) = o.error.map JVal.s := by
  have hrest : List.lookup "error" (optF "elapsed_time" JVal.q o.elapsed_time ++ (optF "timestamp" JVal.s o.timestamp ++ (optF "records_sent" JVal.q o.records_sent ++ (optF "records_per_sec" JVal.q o.records_per_sec ++ (optF "throughput_mb_sec" JVal.q o.throughput_mb_sec ++ (optF "avg_latency_ms" JVal.q o.avg_latency_ms ++ (optF "max_latency_ms" JVal.q o.max_latency_ms ++ (optF "data_consumed_mb" JVal.q o.data_consumed_mb ++ (optF "messages_consumed" JVal.q o.messages_consumed ++ (optF "rebalance_time_ms" JVal.q o.rebalance_time_ms ++ (optF "fetch_time_ms" JVal.q o.fetch_time_ms))))))))))) = none := by
    rw [lookup_optF_ne (by decide), lookup_optF_ne (by decide), lookup_optF_ne (by decide), lookup_optF_ne (by decide), lookup_optF_ne (by decide), lookup_optF_ne (by decide), lookup_optF_ne (by decide), lookup_optF_ne (by decide), lookup_optF_ne (by decide), lookup_optF_ne (by decide), lookup_optF_none (by decide)]
  unfold outcomeToJson
  simp only [List.append_assoc, List.cons_append, List.nil_append]
  rw [lookup_cons_miss (by decide), lookup_cons_miss (by decide), lookup_cons_miss (by decide), lookup_optF_ne (by decide), lookup_optF_ne (by decide), lookup_optF_ne (by decide), lookup_optF_ne (by decide), lookup_optF_ne (by decide), lookup_optF_self _ _ _ _ hrest]

theorem look_elapsed_time (o : Outcome) :
    List.lookup "elapsed_time" (outcomeToJson o) = o.elapsed_time.map JVal.q := by
  have hrest : List.lookup "elapsed_time" (optF "timestamp" JVal.s o.timestamp ++ (optF "records_sent" JVal.q o.records_sent ++ (optF "records_per_sec" JVal.q o.records_per_sec ++ (optF "throughput_mb_sec" JVal.q o.throughput_mb_sec ++ (optF "avg_latency_ms" JVal.q o.avg_latency_ms ++ (optF "max_latency_ms" JVal.q o.max_latency_ms ++ (optF "data_consumed_mb" JVal.q o.data_consumed_mb ++ (optF "messages_consumed" JVal.q o.messages_consumed ++ (optF "rebalance_time_ms" JVal.q o.rebalance_time_ms ++ (optF "fetch_time_ms" JVal.q o.fetch_time_ms)))))))))) = none := by
    rw [lookup_optF_ne (by decide), lookup_optF_ne (by decide), lookup_optF_ne (by decide), lookup_optF_ne (by decide), lookup_optF_ne (by decide), lookup_optF_ne (by decide), lookup_optF_ne (by decide), lookup_optF_ne (by decide), lookup_optF_ne (by decide), lookup_optF_none (by decide)]
  unfold outcomeToJson
  simp only [List.append_assoc, List.cons_append, List.nil_append]
  rw [lookup_cons_miss (by decide), lookup_cons_miss (by decide), lookup_cons_miss (by decide), lookup_optF_ne (by decide), lookup_optF_ne (by decide), lookup_optF_ne (by decide), lookup_optF_ne (by decide), lookup_optF_ne (by decide), lookup_optF_ne (by decide), lookup_optF_self _ _ _ _ hrest]

theorem look_timestamp (o : Outcome) :
    List.lookup "timestamp" (outcomeToJson o) = o.timestamp.map JVal.s := by
  have hrest : List.lookup "timestamp" (optF "records_sent" JVal.q o.records_sent ++ (optF "records_per_sec" JVal.q o.records_per_sec ++ (optF "throughput_mb_sec" JVal.q o.throughput_mb_sec ++ (optF "avg_latency_ms" JVal.q o.avg_latency_ms ++ (optF "max_latency_ms" JVal.q o.max_latency_ms ++ (optF "data_consumed_mb" JVal.q o.data_consumed_mb ++ (optF "messages_consumed" JVal.q o.messages_consumed ++ (optF "rebalance_time_ms" JVal.q o.rebalance_time_ms ++ (optF "fetch_time_ms" JVal.q o.fetch_time_ms))))))))) = none := by
    rw [lookup_optF_ne (by decide), lookup_optF_ne (by decide), lookup_optF_ne (by decide), lookup_optF_ne (by decide), lookup_optF_ne (by decide), lookup_optF_ne (by decide), lookup_optF_ne (by decide), lookup_optF_ne (by decide), lookup_optF_none (by decide)]
  unfold outcomeToJson
  simp only [List.append_assoc, List.cons_append, List.nil_append]
  rw [lookup_cons_miss (by decide), lookup_cons_miss (by decide), lookup_cons_miss (by decide), lookup_optF_ne (by decide), lookup_optF_ne (by decide), lookup_optF_ne (by decide), lookup_optF_ne (by decide), lookup_optF_ne (by decide), lookup_optF_ne (by decide), lookup_optF_ne (by decide), lookup_optF_self _ _ _ _ hrest]

theorem look_records_sent (o : Outcome) :
    List.lookup "records_sent" (outcomeToJson o) = o.records_sent.map JVal.q := by
  have hrest : List.lookup "records_sent" (optF "records_per_sec" JVal.q o.records_per_sec ++ (optF "throughput_mb_sec" JVal.q o.throughput_mb_sec ++ (optF "avg_latency_ms" JVal.q o.avg_latency_ms ++ (optF "max_latency_ms" JVal.q o.max_latency_ms ++ (optF "data_consumed_mb" JVal.q o.data_consumed_mb ++ (optF "messages_consumed" JVal.q o.messages_consumed ++ (optF "rebalance_time_ms" JVal.q o.rebalance_time_ms ++ (optF "fetch_time_ms" JVal.q o.fetch_time_ms)))))))) = none := by
    rw [lookup_optF_ne (by decide), lookup_optF_ne (by decide), lookup_optF_ne (by decide), lookup_optF_ne (by decide), lookup_optF_ne (by decide), lookup_optF_ne (by decide), lookup_optF_ne (by decide), lookup_optF_none (by decide)]
  unfold outcomeToJson
  simp only [List.append_assoc, List.cons_append, List.nil_append]
  rw [lookup_cons_miss (by decide), lookup_cons_miss (by decide), lookup_cons_miss (by decide), lookup_optF_ne (by decide), lookup_optF_ne (by decide), lookup_optF_ne (by decide), lookup_optF_ne (by decide), lookup_optF_ne (by decide), lookup_optF_ne (by decide), lookup_optF_ne (by decide), lookup_optF_ne (by decide), lookup_optF_self _ _ _ _ hrest]

theorem look_records_per_sec (o : Outcome) :
    List.lookup "records_per_sec" (outcomeToJson o) = o.records_per_sec.map JVal.q := by
  have hrest : List.lookup "records_per_sec" (optF "throughput_mb_sec" JVal.q o.throughput_mb_sec ++ (optF "avg_latency_ms" JVal.q o.avg_latency_ms ++ (optF "max_latency_ms" JVal.q o.max_latency_ms ++ (optF "data_consumed_mb" JVal.q o.data_consumed_mb ++ (optF "messages_consumed" JVal.q o.messages_consumed ++ (optF "rebalance_time_ms" JVal.q o.rebalance_time_ms ++ (optF "fetch_time_ms" JVal.q o.fetch_time_ms))))))) = none := by
    rw [lookup_optF_ne (by decide), lookup_optF_ne (by decide), lookup_optF_ne (by decide), lookup_optF_ne (by decide), lookup_optF_ne (by decide), lookup_optF_ne (by decide), lookup_optF_none (by decide)]
  unfold outcomeToJson
  simp only [List.append_assoc, List.cons_append, List.nil_append]
  rw [lookup_cons_miss (by decide), lookup_cons_miss (by decide), lookup_cons_miss (by decide), lookup_optF_ne (by decide), lookup_optF_ne (by decide), lookup_optF_ne (by decide), lookup_optF_ne (by decide), lookup_optF_ne (by decide), lookup_optF_ne (by decide), lookup_optF_ne (by decide), lookup_optF_ne (by decide), lookup_optF_ne (by decide), lookup_optF_self _ _ _ _ hrest]

theorem look_throughput_mb_sec (o : Outcome) :
    List.lookup "throughput_mb_sec" (outcomeToJson o) = o.throughput_mb_sec.map JVal.q := by
  have hrest : List.lookup "throughput_mb_sec" (optF "avg_latency_ms" JVal.q o.avg_latency_ms ++ (optF "max_latency_ms" JVal.q o.max_latency_ms ++ (optF "data_consumed_mb" JVal.q o.data_consumed_mb ++ (optF "messages_consumed" JVal.q o.messages_consumed ++ (optF "rebalance_time_ms" JVal.q o.rebalance_time_ms ++ (optF "fetch_time_ms" JVal.q o.fetch_time_ms)))))) = none := by
    rw [lookup_optF_ne (by decide), lookup_optF_ne (by decide), lookup_optF_ne (by decide), lookup_optF_ne (by decide), lookup_optF_ne (by decide), lookup_optF_none (by decide)]
  unfold outcomeToJson
  simp only [List.append_assoc, List.cons_append, List.nil_append]
  rw [lookup_cons_miss (by decide), lookup_cons_miss (by decide), lookup_cons_miss (by decide), lookup_optF_ne (by decide), lookup_optF_ne (by decide), lookup_optF_ne (by decide), lookup_optF_ne (by decide), lookup_optF_ne (by decide), lookup_optF_ne (by decide), lookup_optF_ne (by decide), lookup_optF_ne (by decide), lookup_optF_ne (by decide), lookup_optF_ne (by decide), lookup_optF_self _ _ _ _ hrest]

theorem look_avg_latency_ms (o : Outcome) :
    List.lookup "avg_latency_ms" (outcomeToJson o) = o.avg_latency_ms.map JVal.q := by
  have hrest : List.lookup "avg_latency_ms" (optF "max_latency_ms" JVal.q o.max_latency_ms ++ (optF "data_consumed_mb" JVal.q o.data_consumed_mb ++ (optF "messages_consumed" JVal.q o.messages_consumed ++ (optF "rebalance_time_ms" JVal.q o.rebalance_time_ms ++ (optF "fetch_time_ms" JVal.q o.fetch_time_ms))))) = none := by
    rw [lookup_optF_ne (by decide), lookup_optF_ne (by decide), lookup_optF_ne (by decide), lookup_optF_ne (by decide), lookup_optF_none (by decide)]
  unfold outcomeToJson
  simp only [List.append_assoc, List.cons_append, List.nil_append]
  rw [lookup_cons_miss (by decide), lookup_cons_miss (by decide), lookup_cons_miss (by decide), lookup_optF_ne (by decide), lookup_optF_ne (by decide), lookup_optF_ne (by decide), lookup_optF_ne (by decide), lookup_optF_ne (by decide), lookup_optF_ne (by decide), lookup_optF_ne (by decide), lookup_optF_ne (by decide), lookup_optF_ne (by decide), lookup_optF_ne (by decide), lookup_optF_ne (by decide), lookup_optF_self _ _ _ _ hrest]

theorem look_max_latency_ms (o : Outcome) :
    List.lookup "max_latency_ms" (outcomeToJson o) = o.max_latency_ms.map JVal.q := by
  have hrest : List.lookup "max_latency_ms" (optF "data_consumed_mb" JVal.q o.data_consumed_mb ++ (optF "messages_consumed" JVal.q o.messages_consumed ++ (optF "rebalance_time_ms" JVal.q o.rebalance_time_ms ++ (optF "fetch_time_ms" JVal.q o.fetch_time_ms)))) = none := by
    rw [lookup_optF_ne (by decide), lookup_optF_ne (by decide), lookup_optF_ne (by decide), lookup_optF_none (by decide)]
  unfold outcomeToJson
  simp only [List.append_assoc, List.cons_append, List.nil_append]
  rw [lookup_cons_miss (by decide), lookup_cons_miss (by decide), lookup_cons_miss (by decide), lookup_optF_ne (by decide), lookup_optF_ne (by decide), lookup_optF_ne (by decide), lookup_optF_ne (by decide), lookup_optF_ne (by decide), lookup_optF_ne (by decide), lookup_optF_ne (by decide), lookup_optF_ne (by decide), lookup_optF_ne (by decide), lookup_optF_ne (by decide), lookup_optF_ne (by decide), lookup_optF_ne (by decide), lookup_optF_self _ _ _ _ hrest]

theorem look_data_consumed_mb (o : Outcome) :
    List.lookup "data_consumed_mb" (outcomeToJson o) = o.data_consumed_mb.map JVal.q := by
  have hrest : List.lookup "data_consumed_mb" (optF "messages_consumed" JVal.q o.messages_consumed ++ (optF "rebalance_time_ms" JVal.q o.rebalance_time_ms ++ (optF "fetch_time_ms" JVal.q o.fetch_time_ms))) = none := by
    rw [lookup_optF_ne (by decide), lookup_optF_ne (by decide), lookup_optF_none (by decide)]
  unfold outcomeToJson
  simp only [List.append_assoc, List.cons_append, List.nil_append]
  rw [lookup_cons_miss (by decide), lookup_cons_miss (by decide), lookup_cons_miss (by decide), lookup_optF_ne (by decide), lookup_optF_ne (by decide), lookup_optF_ne (by decide), lookup_optF_ne (by decide), lookup_optF_ne (by decide), lookup_optF_ne (by decide), lookup_optF_ne (by decide), lookup_optF_ne (by decide), lookup_optF_ne (by decide), lookup_optF_ne (by decide), lookup_optF_ne (by decide), lookup_optF_ne (by decide), lookup_optF_ne (by decide), lookup_optF_self _ _ _ _ hrest]

theorem look_messages_consumed (o : Outcome) :
    List.lookup "messages_consumed" (outcomeToJson o) = o.messages_consumed.map JVal.q := by
  have hrest : List.lookup "messages_consumed" (optF "rebalance_time_ms" JVal.q o.rebalance_time_ms ++ (optF "fetch_time_ms" JVal.q o.fetch_time_ms)) = none := by
    rw [lookup_optF_ne (by decide), lookup_optF_none (by decide)]
  unfold outcomeToJson
  simp only [List.append_assoc, List.cons_append, List.nil_append]
  rw [lookup_cons_miss (by decide), lookup_cons_miss (by decide), lookup_cons_miss (by decide), lookup_optF_ne (by decide), lookup_optF_ne (by decide), lookup_optF_ne (by decide), lookup_optF_ne (by decide), lookup_optF_ne (by decide), lookup_optF_ne (by decide), lookup_optF_ne (by decide), lookup_optF_ne (by decide), lookup_optF_ne (by decide), lookup_optF_ne (by decide), lookup_optF_ne (by decide), lookup_optF_ne (by decide), lookup_optF_ne (by decide), lookup_optF_ne (by decide), lookup_optF_self _ _ _ _ hrest]

theorem look_rebalance_time_ms (o : Outcome) :
    List.lookup "rebalance_time_ms" (outcomeToJson o) = o.rebalance_time_ms.map JVal.q := by
  have hrest : List.lookup "rebalance_time_ms" (optF "fetch_time_ms" JVal.q o.fetch_time_ms) = none := by
    rw [lookup_optF_none (by decide)]
  unfold outcomeToJson
  simp only [List.append_assoc, List.cons_append, List.nil_append]
  rw [lookup_cons_miss (by decide), lookup_cons_miss (by decide), lookup_cons_miss (by decide), lookup_optF_ne (by decide), lookup_optF_ne (by decide), lookup_optF_ne (by decide), lookup_optF_ne (by decide), lookup_optF_ne (by decide), lookup_optF_ne (by decide), lookup_optF_ne (by decide), lookup_optF_ne (by decide), lookup_optF_ne (by decide), lookup_optF_ne (by decide), lookup_optF_ne (by decide), lookup_optF_ne (by decide), lookup_optF_ne (by decide), lookup_optF_ne (by decide), lookup_optF_ne (by decide), lookup_optF_self _ _ _ _ hrest]

theorem look_fetch_time_ms (o : Outcome) :
    List.lookup "fetch_time_ms" (outcomeToJson o) = o.fetch_time_ms.map JVal.q := by
  unfold outcomeToJson
  simp only [List.append_assoc, List.cons_append, List.nil_append]
  rw [lookup_cons_miss (by decide), lookup_cons_miss (by decide), lookup_cons_miss (by decide), lookup_optF_ne (by decide), lookup_optF_ne (by decide), lookup_optF_ne (by decide), lookup_optF_ne (by decide), lookup_optF_ne (by decide), lookup_optF_ne (by decide), lookup_optF_ne (by decide), lookup_optF_ne (by decide), lookup_optF_ne (by decide), lookup_optF_ne (by decide), lookup_optF_ne (by decide), lookup_optF_ne (by decide), lookup_optF_ne (by decide), lookup_optF_ne (by decide), lookup_optF_ne (by decide), lookup_optF_ne (by decide), lookup_optF_self_nil]

theorem mapS_bind (v : Option String) : (v.map JVal.s).bind JVal.asS = v := by
  cases v <;> rfl

theorem mapI_bind (v : Option Int) : (v.map JVal.i).bind JVal.asI = v := by
  cases v <;> rfl

theorem mapQ_bind (v : Option ℚ) : (v.map JVal.q).bind JVal.asQ = v := by
  cases v <;> rfl

theorem outcomeOfJson_toJson (o : Outcome) : outcomeOfJson (outcomeToJson o) = some o := by
  unfold outcomeOfJson
  rw [look_test_name o, look_test_type o, look_status o, look_topic o, look_num_records o,
    look_record_size o, look_messages o, look_acks o, look_error o, look_elapsed_time o,
    look_timestamp o, look_records_sent o, look_records_per_sec o, look_throughput_mb_sec o,
    look_avg_latency_ms o, look_max_latency_ms o, look_data_consumed_mb o,
    look_messages_consumed o, look_rebalance_time_ms o, look_fetch_time_ms o]
  simp only [Option.some_bind, show ∀ x : String, JVal.asS (JVal.s x) = some x from
    fun x => rfl, mapS_bind, mapI_bind, mapQ_bind]

/-- C9: persisting an outcome sequence with `save_results` and reloading the
persisted structure yields a sequence equal in every present field to the
original, for successful and unsuccessful outcomes alike — the serialization is
loss-free and order-preserving. -/
theorem C9_save_load_round_trip (rs : List Outcome) :
    load_results (save_results rs) = some rs := by
  induction rs with
  | nil => rfl
  | cons o os ih =>
    simp only [save_results, List.map_cons] at *
    simp only [load_results, outcomeOfJson_toJson, ih]
